import Mathlib

/-!
Verification development for the terraform-importer repository.

The repository consists of standalone Python scripts that read AWS
Transit-Gateway resource descriptions (JSON documents) and emit Terraform
configuration and `terraform import` shell scripts.  This file gives a
shallow embedding of the data model and of the operations the claims
concern, translated from the Python sources:

  * `scripts/generate_import_commands.py`  -> namespace `GenImport`
  * `scripts/generate_terraform.py`        -> namespace `GenTerraform`
  * `scripts/generate_terraform_config.py` -> namespace `GenConfig`

Modelling conventions:

  * A JSON dictionary accessed with `d.get(k)` / `d.get(k, default)` is a
    structure whose field is an `Option`; `.get(k, default)` becomes
    `field.getD default`.  A key accessed with `d[k]` (which the scripts
    only do for keys AWS always populates) is a plain field.
  * A Python `dict` built by insertion is an association list
    (`List (String × α)`) with `dictInsert`: inserting an existing key
    overwrites the value in place (keeping the original position), a new
    key is appended.  This matches CPython's ordered-dict semantics, and
    `.items()` iteration order is the list order.
  * The input directory is a structure whose fields are `Option` documents
    (`none` = the file does not exist); per-resource detail files are
    functions from the resource id to an optional document.
  * File output is modelled as the list of (path, content) pairs in write
    order; scripts that build a `lines` list and join with newline are
    modelled at the `List String` granularity.
  * Python `str.lower()` is modelled as ASCII lowercasing (`Char.toLower`),
    the relevant alphabet for AWS names and tags.
-/

/-- Python dict membership test on an association-list dictionary. -/
def dictContains {α : Type} (m : List (String × α)) (k : String) : Bool :=
  m.any (fun p => p.1 == k)

/-- Python dict indexing (first binding wins; `dictInsert` keeps keys unique). -/
def dictLookup {α : Type} (m : List (String × α)) (k : String) : Option α :=
  (m.find? (fun p => p.1 == k)).map (fun p => p.2)

/-- Python dict assignment `m[k] = v`: overwrite in place if the key exists
(keeping its original position), otherwise append. -/
def dictInsert {α : Type} (m : List (String × α)) (k : String) (v : α) :
    List (String × α) :=
  if dictContains m k then m.map (fun p => if p.1 == k then (k, v) else p)
  else m ++ [(k, v)]

/-- Python truthiness of an `Optional[str]`: `None` and `""` are falsy. -/
def truthyOptStr : Option String → Bool
  | none => false
  | some s => s != ""

theorem dictLookup_nil {α : Type} (k : String) :
    dictLookup ([] : List (String × α)) k = none := rfl

theorem dictLookup_append_not_left {α : Type} (m₁ m₂ : List (String × α))
    (k : String) (h : dictContains m₁ k = false) :
    dictLookup (m₁ ++ m₂) k = dictLookup m₂ k := by
  induction m₁ with
  | nil => simp
  | cons p t ih =>
    simp only [dictContains, List.any_cons, Bool.or_eq_false_iff] at h
    simp only [dictLookup, List.cons_append, List.find?_cons, h.1]
    exact ih h.2

theorem find?_eq_none_of_not_contains {α : Type} (m : List (String × α))
    (k : String) (h : dictContains m k = false) :
    m.find? (fun p => p.1 == k) = none := by
  rw [List.find?_eq_none]
  intro p hp
  simp only [dictContains, List.any_eq_false] at h
  exact h p hp

theorem lookup_overwrite_self {α : Type} (m : List (String × α)) (k : String)
    (v : α) (h : dictContains m k = true) :
    dictLookup (m.map (fun p => if p.1 == k then (k, v) else p)) k = some v := by
  induction m with
  | nil => simp [dictContains] at h
  | cons p t ih =>
    by_cases hp : (p.1 == k) = true
    · simp only [List.map_cons, if_pos hp]
      simp [dictLookup, List.find?_cons]
    · have ht : dictContains t k = true := by
        simp only [dictContains, List.any_cons, hp, Bool.false_or] at h
        exact h
      simp only [List.map_cons, if_neg hp]
      have step : dictLookup (p :: t.map (fun p => if p.1 == k then (k, v) else p)) k
          = dictLookup (t.map (fun p => if p.1 == k then (k, v) else p)) k := by
        simp [dictLookup, List.find?_cons, hp]
      rw [step]
      exact ih ht

theorem lookup_overwrite_ne {α : Type} (m : List (String × α)) (k k' : String)
    (v : α) (h : k' ≠ k) :
    dictLookup (m.map (fun p => if p.1 == k then (k, v) else p)) k'
      = dictLookup m k' := by
  induction m with
  | nil => rfl
  | cons p t ih =>
    by_cases hp : (p.1 == k) = true
    · have h1 : ¬ (k == k') = true := by
        simp only [beq_iff_eq]
        exact fun he => h he.symm
      have h2 : ¬ (p.1 == k') = true := by
        have hp' : p.1 = k := by simpa using hp
        simp only [hp', beq_iff_eq]
        exact fun he => h he.symm
      simp only [List.map_cons, if_pos hp]
      have s1 : dictLookup ((k, v) :: t.map (fun p => if p.1 == k then (k, v) else p)) k'
          = dictLookup (t.map (fun p => if p.1 == k then (k, v) else p)) k' := by
        simp [dictLookup, List.find?_cons, h1]
      have s2 : dictLookup (p :: t) k' = dictLookup t k' := by
        simp [dictLookup, List.find?_cons, h2]
      rw [s1, s2]
      exact ih
    · simp only [List.map_cons, if_neg hp]
      by_cases hpk : (p.1 == k') = true
      · simp [dictLookup, List.find?_cons, hpk]
      · have s1 : dictLookup (p :: t.map (fun p => if p.1 == k then (k, v) else p)) k'
            = dictLookup (t.map (fun p => if p.1 == k then (k, v) else p)) k' := by
          simp [dictLookup, List.find?_cons, hpk]
        have s2 : dictLookup (p :: t) k' = dictLookup t k' := by
          simp [dictLookup, List.find?_cons, hpk]
        rw [s1, s2]
        exact ih

theorem dictLookup_insert_self {α : Type} (m : List (String × α)) (k : String)
    (v : α) : dictLookup (dictInsert m k v) k = some v := by
  unfold dictInsert
  by_cases h : dictContains m k
  · rw [if_pos h]
    exact lookup_overwrite_self m k v h
  · rw [if_neg h]
    rw [dictLookup_append_not_left _ _ _ (by simpa using h)]
    simp [dictLookup, List.find?_cons]

theorem dictLookup_insert_ne {α : Type} (m : List (String × α)) (k k' : String)
    (v : α) (h : k' ≠ k) : dictLookup (dictInsert m k v) k' = dictLookup m k' := by
  unfold dictInsert
  by_cases hc : dictContains m k
  · rw [if_pos hc]
    exact lookup_overwrite_ne m k k' v h
  · rw [if_neg hc]
    induction m with
    | nil =>
      have hkk : ¬ (k == k') = true := by
        simp only [beq_iff_eq]
        exact fun he => h he.symm
      simp [dictLookup, List.find?_cons, hkk]
    | cons p t ih =>
      by_cases hpk : (p.1 == k') = true
      · simp [dictLookup, List.find?_cons, hpk]
      · have s1 : dictLookup ((p :: t) ++ [(k, v)]) k'
            = dictLookup (t ++ [(k, v)]) k' := by
          simp [dictLookup, List.find?_cons, hpk]
        have s2 : dictLookup (p :: t) k' = dictLookup t k' := by
          simp [dictLookup, List.find?_cons, hpk]
        rw [s1, s2]
        exact ih (fun ht => hc (by
          unfold dictContains at ht ⊢
          simp [List.any_cons, ht]))

theorem dictContains_insert_self {α : Type} (m : List (String × α)) (k : String)
    (v : α) : dictContains (dictInsert m k v) k = true := by
  unfold dictInsert
  by_cases h : dictContains m k
  · rw [if_pos h]
    unfold dictContains at h ⊢
    simp only [List.any_eq_true] at h ⊢
    obtain ⟨p, hp, he⟩ := h
    exact ⟨(k, v), List.mem_map.mpr ⟨p, hp, by rw [if_pos he]⟩, by simp⟩
  · rw [if_neg h]
    unfold dictContains
    simp

theorem dictContains_insert_mono {α : Type} (m : List (String × α))
    (k k' : String) (v : α) (h : dictContains m k' = true) :
    dictContains (dictInsert m k v) k' = true := by
  unfold dictInsert
  by_cases hc : dictContains m k
  · rw [if_pos hc]
    unfold dictContains at h ⊢
    simp only [List.any_eq_true] at h ⊢
    obtain ⟨p, hp, he⟩ := h
    by_cases hpk : (p.1 == k) = true
    · refine ⟨(k, v), List.mem_map.mpr ⟨p, hp, by rw [if_pos hpk]⟩, ?_⟩
      have hp' : p.1 = k := by simpa using hpk
      simp only [← hp']
      exact he
    · exact ⟨p, List.mem_map.mpr ⟨p, hp, by rw [if_neg hpk]⟩, he⟩
  · rw [if_neg hc]
    unfold dictContains at h ⊢
    simp only [List.any_append, h, Bool.true_or]

/-! ### Character-level sanitization helpers

The scripts sanitize display names with chained `str.replace` calls (all of
them single-character substitutions, hence a character map) followed by
`str.lower()`. -/

/-- `name.replace('-', '_').replace(' ', '_').replace(':', '_')` per character. -/
def keyRepl (c : Char) : Char :=
  if c = '-' then '_' else if c = ' ' then '_' else if c = ':' then '_' else c

/-- `name.replace('-', '_').replace(' ', '_')` per character. -/
def resRepl (c : Char) : Char :=
  if c = '-' then '_' else if c = ' ' then '_' else c

/-- `name.replace(' ', '-').replace('_', '-')` per character. -/
def dirRepl (c : Char) : Char :=
  if c = ' ' then '-' else if c = '_' then '-' else c

/-- `destination.replace('/', '_').replace('.', '_').replace(':', '_')` per
character (the CIDR-key substitution used by `generate_import_commands.py`,
`generate_terraform_config.py` and `generate_vpc_route`). -/
def cidrReplFull (c : Char) : Char :=
  if c = '/' then '_' else if c = '.' then '_' else if c = ':' then '_' else c

/-- `dest_cidr.replace('/', '_').replace('.', '_')` per character (the
CIDR-key substitution of `generate_tgw_route` in `generate_terraform.py`,
which does not touch `:`). -/
def cidrReplNoColon (c : Char) : Char :=
  if c = '/' then '_' else if c = '.' then '_' else c

theorem char_toNat_ofNat (n : Nat) (h : n.isValidChar) :
    (Char.ofNat n).toNat = n := by
  simp only [Char.ofNat, dif_pos h, Char.ofNatAux, Char.toNat, UInt32.toNat]
  simp [BitVec.toNat_ofNatLt]

theorem char_eq_iff_toNat (c d : Char) : c = d ↔ c.toNat = d.toNat := by
  constructor
  · intro h
    rw [h]
  · intro h
    apply Char.eq_of_val_eq
    apply UInt32.eq_of_toBitVec_eq
    apply BitVec.eq_of_toNat_eq
    exact h

theorem toLower_eq_of_not_upper (c : Char)
    (h : ¬ (c.toNat ≥ 65 ∧ c.toNat ≤ 90)) : c.toLower = c := by
  simp [Char.toLower, h]

theorem toNat_toLower_of_upper (c : Char)
    (h : c.toNat ≥ 65 ∧ c.toNat ≤ 90) : c.toLower.toNat = c.toNat + 32 := by
  simp only [Char.toLower, h, and_self, if_true, if_pos]
  exact char_toNat_ofNat _ (Or.inl (by omega))

theorem toLower_idem (c : Char) : c.toLower.toLower = c.toLower := by
  by_cases h : c.toNat ≥ 65 ∧ c.toNat ≤ 90
  · have hn := toNat_toLower_of_upper c h
    exact toLower_eq_of_not_upper _ (by omega)
  · rw [toLower_eq_of_not_upper c h, toLower_eq_of_not_upper c h]

/-- Lowercasing never produces a character with code below 97 that was not
already there: if `d` has code below 97 and `c ≠ d`, then `c.toLower ≠ d`. -/
theorem toLower_ne (c d : Char) (hd : d.toNat < 97) (h : c ≠ d) :
    c.toLower ≠ d := by
  by_cases hu : c.toNat ≥ 65 ∧ c.toNat ≤ 90
  · have hn := toNat_toLower_of_upper c hu
    intro he
    rw [char_eq_iff_toNat] at he
    omega
  · rw [toLower_eq_of_not_upper c hu]
    exact h

theorem keyRepl_eq_self_of_ne (d : Char) (h1 : d ≠ '-') (h2 : d ≠ ' ')
    (h3 : d ≠ ':') : keyRepl d = d := by
  unfold keyRepl
  rw [if_neg h1, if_neg h2, if_neg h3]

theorem resRepl_eq_self_of_ne (d : Char) (h1 : d ≠ '-') (h2 : d ≠ ' ') :
    resRepl d = d := by
  unfold resRepl
  rw [if_neg h1, if_neg h2]

theorem keyRepl_ne_dom (c : Char) :
    keyRepl c ≠ '-' ∧ keyRepl c ≠ ' ' ∧ keyRepl c ≠ ':' := by
  unfold keyRepl
  split_ifs <;> refine ⟨?_, ?_, ?_⟩ <;> first | decide | assumption

theorem resRepl_ne_dom (c : Char) : resRepl c ≠ '-' ∧ resRepl c ≠ ' ' := by
  unfold resRepl
  split_ifs <;> refine ⟨?_, ?_⟩ <;> first | decide | assumption

theorem key_char_idem (c : Char) :
    (keyRepl (keyRepl c).toLower).toLower = (keyRepl c).toLower := by
  obtain ⟨d1, d2, d3⟩ := keyRepl_ne_dom c
  have e1 : (keyRepl c).toLower ≠ '-' := toLower_ne _ _ (by decide) d1
  have e2 : (keyRepl c).toLower ≠ ' ' := toLower_ne _ _ (by decide) d2
  have e3 : (keyRepl c).toLower ≠ ':' := toLower_ne _ _ (by decide) d3
  rw [keyRepl_eq_self_of_ne _ e1 e2 e3, toLower_idem]

theorem res_char_idem (c : Char) :
    (resRepl (resRepl c).toLower).toLower = (resRepl c).toLower := by
  obtain ⟨d1, d2⟩ := resRepl_ne_dom c
  have e1 : (resRepl c).toLower ≠ '-' := toLower_ne _ _ (by decide) d1
  have e2 : (resRepl c).toLower ≠ ' ' := toLower_ne _ _ (by decide) d2
  rw [resRepl_eq_self_of_ne _ e1 e2, toLower_idem]

namespace GenImport

/-- `sanitize_key` of `generate_import_commands.py` (lines 50-52):
`name.replace('-', '_').replace(' ', '_').replace(':', '_').lower()`. -/
def sanitize_key (name : String) : String :=
  String.mk ((name.data.map keyRepl).map Char.toLower)

/-- `sanitize_dirname` of `generate_import_commands.py` (lines 54-63):
strip one leading case-insensitive `tgw-rt-` (the regex is anchored with
`^`, so `re.sub` replaces at most one occurrence), then
`.replace(' ', '-').replace('_', '-').lower()`. -/
def sanitize_dirname (name : String) : String :=
  let stripped :=
    if (name.data.take 7).map Char.toLower = "tgw-rt-".data then
      name.data.drop 7
    else name.data
  String.mk ((stripped.map dirRepl).map Char.toLower)

theorem sanitize_key_idem (s : String) :
    sanitize_key (sanitize_key s) = sanitize_key s := by
  unfold sanitize_key
  congr 1
  show ((((s.data.map keyRepl).map Char.toLower).map keyRepl).map Char.toLower)
      = (s.data.map keyRepl).map Char.toLower
  simp only [List.map_map]
  exact List.map_congr_left (fun a _ => key_char_idem a)

end GenImport

namespace GenTerraform

/-- `sanitize_resource_name` of `generate_terraform.py` (lines 47-49):
`name.replace('-', '_').replace(' ', '_').lower()`. -/
def sanitize_resource_name (name : String) : String :=
  String.mk ((name.data.map resRepl).map Char.toLower)

theorem sanitize_resource_name_idem (s : String) :
    sanitize_resource_name (sanitize_resource_name s) = sanitize_resource_name s := by
  unfold sanitize_resource_name
  congr 1
  show ((((s.data.map resRepl).map Char.toLower).map resRepl).map Char.toLower)
      = (s.data.map resRepl).map Char.toLower
  simp only [List.map_map]
  exact List.map_congr_left (fun a _ => res_char_idem a)

end GenTerraform

namespace GenConfig

/-- `sanitize_key` of `generate_terraform_config.py` (lines 251-253); the
body is identical to the one in `generate_import_commands.py`. -/
def sanitize_key (name : String) : String :=
  String.mk ((name.data.map keyRepl).map Char.toLower)

/-- `sanitize_dirname` of `generate_terraform_config.py` (lines 255-264);
the body is identical to the one in `generate_import_commands.py`. -/
def sanitize_dirname (name : String) : String :=
  let stripped :=
    if (name.data.take 7).map Char.toLower = "tgw-rt-".data then
      name.data.drop 7
    else name.data
  String.mk ((stripped.map dirRepl).map Char.toLower)

theorem sanitize_key_config_idem (s : String) :
    sanitize_key (sanitize_key s) = sanitize_key s := by
  unfold sanitize_key
  congr 1
  show ((((s.data.map keyRepl).map Char.toLower).map keyRepl).map Char.toLower)
      = (s.data.map keyRepl).map Char.toLower
  simp only [List.map_map]
  exact List.map_congr_left (fun a _ => key_char_idem a)

end GenConfig

/-- C3 counterexample: `sanitize_dirname` is not idempotent.  On the input
`"tgw_rt_prod"` the first application yields `"tgw-rt-prod"` (underscores
become hyphens, no prefix stripped because the input has underscores), and
the second application strips the now-present `tgw-rt-` prefix, yielding
`"prod"`. -/
theorem sanitize_dirname_not_idempotent_cex :
    GenImport.sanitize_dirname (GenImport.sanitize_dirname "tgw_rt_prod")
      ≠ GenImport.sanitize_dirname "tgw_rt_prod"
    ∧ GenImport.sanitize_dirname "tgw_rt_prod" = "tgw-rt-prod"
    ∧ GenImport.sanitize_dirname (GenImport.sanitize_dirname "tgw_rt_prod") = "prod" := by
  refine ⟨?_, ?_, ?_⟩ <;> decide

/-- C3 amended: every sanitization function except `sanitize_dirname` is
idempotent: `sanitize_key` (in both `generate_import_commands.py` and
`generate_terraform_config.py`) and `sanitize_resource_name`
(`generate_terraform.py`) satisfy `f (f s) = f s` for every string `s`;
`sanitize_dirname` does not (see the counterexample). -/
theorem sanitize_idempotent_amended (s : String) :
    GenImport.sanitize_key (GenImport.sanitize_key s) = GenImport.sanitize_key s
    ∧ GenConfig.sanitize_key (GenConfig.sanitize_key s) = GenConfig.sanitize_key s
    ∧ GenTerraform.sanitize_resource_name
        (GenTerraform.sanitize_resource_name s)
        = GenTerraform.sanitize_resource_name s :=
  ⟨GenImport.sanitize_key_idem s, GenConfig.sanitize_key_config_idem s,
    GenTerraform.sanitize_resource_name_idem s⟩

/-! ### Shared data model

Record shapes for the JSON documents the scripts read.  Fields accessed in
Python with `d[k]` are plain; fields accessed with `.get` are `Option`s. -/

/-- One entry of an AWS `Tags` list (`{"Key": ..., "Value": ...}`); the
scripts read both components with `.get`. -/
structure Tag where
  tagKey : Option String
  tagValue : Option String
deriving DecidableEq

/-- One record of `tgw-attachments.json` / `TransitGatewayAttachments`. -/
structure Attachment where
  transitGatewayAttachmentId : String
  transitGatewayId : Option String
  resourceType : Option String
  tags : Option (List Tag)
  resourceId : Option String
deriving DecidableEq

/-- One record of `transit-gateways.json` / `TransitGateways` (the fields
`generate_import_commands.py` reads). -/
structure Tgw where
  transitGatewayId : String
  tags : Option (List Tag)
deriving DecidableEq

/-- One record of `tgw-route-tables.json` / `TransitGatewayRouteTables`. -/
structure RouteTableRec where
  transitGatewayRouteTableId : String
  transitGatewayId : Option String
  tags : Option (List Tag)
deriving DecidableEq

/-- One record of `tgw-rt-associations-{id}.json` / `Associations`. -/
structure AssociationRec where
  state : Option String
  transitGatewayAttachmentId : Option String
deriving DecidableEq

/-- One record of `tgw-rt-propagations-{id}.json` /
`TransitGatewayRouteTablePropagations`. -/
structure PropagationRec where
  state : Option String
  transitGatewayAttachmentId : Option String
deriving DecidableEq

/-- One entry of a route's `TransitGatewayAttachments` list. -/
structure RouteAttRef where
  transitGatewayAttachmentId : Option String
deriving DecidableEq

/-- One record of `tgw-rt-routes-{id}.json` / `Routes` (union of the fields
read by the three scripts). -/
structure RouteRec where
  routeType : Option String
  destinationCidrBlock : Option String
  state : Option String
  transitGatewayAttachments : Option (List RouteAttRef)
deriving DecidableEq

/-- Document `transit-gateways.json`: `.get('TransitGateways', [])`. -/
structure TgwDoc where
  transitGateways : Option (List Tgw)

/-- Document `tgw-attachments.json`. -/
structure AttDoc where
  transitGatewayAttachments : Option (List Attachment)

/-- Document `tgw-route-tables.json`. -/
structure RtDoc where
  transitGatewayRouteTables : Option (List RouteTableRec)

/-- Document `tgw-rt-associations-{id}.json`. -/
structure AssocDoc where
  associations : Option (List AssociationRec)

/-- Document `tgw-rt-propagations-{id}.json`. -/
structure PropDoc where
  transitGatewayRouteTablePropagations : Option (List PropagationRec)

/-- Document `tgw-rt-routes-{id}.json`. -/
structure RouteDoc where
  routes : Option (List RouteRec)

/-- `load_json` as defined identically in all three generator scripts
(`generate_import_commands.py` lines 33-39 and its twins): return the parsed
document, or an empty document (empty JSON mapping) when the file does not
exist in the input directory. -/
def load_json {α : Type} (file : Option α) (empty : α) : α :=
  file.getD empty

namespace GenImport

/-- The loop of `get_tag_value`: the value of the first tag whose `Key`
equals `key`, else the default (also when the matching tag has no `Value`). -/
def get_tag_value_list (key dflt : String) : List Tag → String
  | [] => dflt
  | t :: ts =>
    if t.tagKey == some key then t.tagValue.getD dflt
    else get_tag_value_list key dflt ts

/-- `get_tag_value` of `generate_import_commands.py` (lines 41-48):
`if not tags: return default` (covering both `None` and an empty list),
then the first-match loop. -/
def get_tag_value (tags : Option (List Tag)) (key : String) (dflt : String) :
    String :=
  match tags with
  | none => dflt
  | some l => get_tag_value_list key dflt l

/-- The resolved attachment info `collect_all_attachments` stores per
attachment id (lines 125-131). -/
structure AttInfo where
  attKey : String
  attType : String
  name : String
  attachment_id : String
  resource_id : String
deriving DecidableEq

/-- The input directory of `generate_import_commands.py`, file name to
optional document. -/
structure InputDir where
  transitGateways : Option TgwDoc
  tgwAttachments : Option AttDoc
  tgwRouteTables : Option RtDoc
  rtAssociations : String → Option AssocDoc
  rtPropagations : String → Option PropDoc
  rtRoutes : String → Option RouteDoc

/-- The skip condition of `collect_all_attachments` (line 117):
`if self.selected_tgw_id and attachment.get('TransitGatewayId') !=
self.selected_tgw_id: continue`.  Note the truthiness guard: with a falsy
selected id (None or the empty string) nothing is skipped. -/
def skip_attachment (selected_tgw_id : Option String) (a : Attachment) : Bool :=
  truthyOptStr selected_tgw_id && !(a.transitGatewayId == selected_tgw_id)

/-- `collect_all_attachments` (lines 106-133): all attachment info indexed
by attachment id, restricted to the selected TGW (via `skip_attachment`). -/
def collect_all_attachments (selected_tgw_id : Option String)
    (inp : InputDir) : List (String × AttInfo) :=
  let tgw_attachments_data := load_json inp.tgwAttachments ⟨none⟩
  (tgw_attachments_data.transitGatewayAttachments.getD []).foldl
    (fun attachments attachment =>
      if skip_attachment selected_tgw_id attachment then attachments
      else
        let attachment_id := attachment.transitGatewayAttachmentId
        let resource_type := attachment.resourceType.getD ""
        let name := get_tag_value attachment.tags "Name" attachment_id
        let attKey := sanitize_key name
        dictInsert attachments attachment_id
          ⟨attKey, resource_type, name, attachment_id,
            attachment.resourceId.getD ""⟩)
    []

/-- The association-collection loop of `generate_all_imports`
(lines 250-262): keep only records in state `associated` whose attachment id
resolves in `all_attachments`, and record the resolved attachment's key. -/
def collect_associations (all_attachments : List (String × AttInfo))
    (assocs : List AssociationRec) : List String :=
  assocs.foldl
    (fun associations assoc =>
      if !(assoc.state == some "associated") then associations
      else
        match assoc.transitGatewayAttachmentId with
        | none => associations
        | some att_id =>
          match dictLookup all_attachments att_id with
          | some att => associations ++ [att.attKey]
          | none => associations)
    []

/-- The propagation-collection loop of `generate_all_imports`
(lines 264-276): same as associations with state `enabled`. -/
def collect_propagations (all_attachments : List (String × AttInfo))
    (props : List PropagationRec) : List String :=
  props.foldl
    (fun propagations prop =>
      if !(prop.state == some "enabled") then propagations
      else
        match prop.transitGatewayAttachmentId with
        | none => propagations
        | some att_id =>
          match dictLookup all_attachments att_id with
          | some att => propagations ++ [att.attKey]
          | none => propagations)
    []

/-- The `rt_attachments` construction of `generate_all_imports`
(lines 278-293): for each association key, the first attachment with that
key; then, for each propagation key not already present, likewise. -/
def build_rt_attachments (all_attachments : List (String × AttInfo))
    (associations propagations : List String) : List (String × AttInfo) :=
  let rt1 := associations.foldl
    (fun rt_attachments assoc_key =>
      match all_attachments.find? (fun p => p.2.attKey == assoc_key) with
      | some p => dictInsert rt_attachments assoc_key p.2
      | none => rt_attachments)
    []
  propagations.foldl
    (fun rt_attachments prop_key =>
      if dictContains rt_attachments prop_key then rt_attachments
      else
        match all_attachments.find? (fun p => p.2.attKey == prop_key) with
        | some p => dictInsert rt_attachments prop_key p.2
        | none => rt_attachments)
    rt1

/-- A collected route (lines 311-314). -/
structure RouteInfo where
  routeKey : String
  destination_cidr_block : String
deriving DecidableEq

/-- The CIDR-key substitution of `generate_all_imports` (line 308):
`destination.replace('/', '_').replace('.', '_').replace(':', '_')`. -/
def sanitize_cidr (destination : String) : String :=
  String.mk (destination.data.map cidrReplFull)

/-- The route-collection loop of `generate_all_imports` (lines 295-314):
keep only routes of type `static` with a non-empty destination. -/
def collect_import_routes (rs : List RouteRec) : List RouteInfo :=
  rs.foldl
    (fun routes route =>
      if !(route.routeType == some "static") then routes
      else
        let destination := route.destinationCidrBlock.getD ""
        if destination == "" then routes
        else
          let dest_sanitized := sanitize_cidr destination
          routes ++ [⟨"route_" ++ dest_sanitized, destination⟩])
    []

end GenImport

namespace GenImport

/-- The association import line of `generate_route_table_import` (line 166). -/
def assoc_import_line (rt_id assoc_key att_id : String) : String :=
  "terraform import 'aws_ec2_transit_gateway_route_table_association.this[\""
    ++ assoc_key ++ "\"]' " ++ rt_id ++ "_" ++ att_id

/-- The commented association placeholder line (line 168). -/
def assoc_placeholder_line (rt_id assoc_key : String) : String :=
  "# terraform import 'aws_ec2_transit_gateway_route_table_association.this[\""
    ++ assoc_key ++ "\"]' " ++ rt_id ++ "_<attachment-id>"

/-- The propagation import line (line 178). -/
def prop_import_line (rt_id prop_key att_id : String) : String :=
  "terraform import 'aws_ec2_transit_gateway_route_table_propagation.this[\""
    ++ prop_key ++ "\"]' " ++ rt_id ++ "_" ++ att_id

/-- The commented propagation placeholder line (line 180). -/
def prop_placeholder_line (rt_id prop_key : String) : String :=
  "# terraform import 'aws_ec2_transit_gateway_route_table_propagation.this[\""
    ++ prop_key ++ "\"]' " ++ rt_id ++ "_<attachment-id>"

/-- The route import line (line 190). -/
def route_import_line (rt_id route_key destination : String) : String :=
  "terraform import 'aws_ec2_transit_gateway_route.this[\"" ++ route_key
    ++ "\"]' " ++ rt_id ++ "_" ++ destination

/-- `generate_route_table_import` (lines 135-196), at the granularity of the
`lines` list the source builds (the source returns `'\n'.join(lines)`).
The dead per-type groupings of lines 151-154 (`vpc_atts` etc., never used)
are not reproduced. -/
def generate_route_table_import_lines (rt_id rt_name : String)
    (rt_attachments : List (String × AttInfo))
    (associations propagations : List String)
    (routes : List RouteInfo) : List String :=
  ["#!/bin/bash", "set -euo pipefail", ""]
  ++ ["echo 'Importing resources for route table: " ++ rt_name ++ "'", ""]
  ++ ["# Import Route Table",
      "terraform import aws_ec2_transit_gateway_route_table.this " ++ rt_id, ""]
  ++ (if associations.isEmpty then [] else
      ["# Import Route Table Associations"]
      ++ associations.map (fun assoc_key =>
          match dictLookup rt_attachments assoc_key with
          | some att => assoc_import_line rt_id assoc_key att.attachment_id
          | none => assoc_placeholder_line rt_id assoc_key)
      ++ [""])
  ++ (if propagations.isEmpty then [] else
      ["# Import Route Table Propagations"]
      ++ propagations.map (fun prop_key =>
          match dictLookup rt_attachments prop_key with
          | some att => prop_import_line rt_id prop_key att.attachment_id
          | none => prop_placeholder_line rt_id prop_key)
      ++ [""])
  ++ (if routes.isEmpty then [] else
      ["# Import Transit Gateway Routes"]
      ++ routes.map (fun route =>
          route_import_line rt_id route.routeKey route.destination_cidr_block)
      ++ [""])
  ++ ["echo '✓ Import completed'", ""]

/-- The VPC attachment import line of `generate_tgw_import` (line 91). -/
def vpc_att_import_line (att_key att_id : String) : String :=
  "terraform import 'aws_ec2_transit_gateway_vpc_attachment.this[\""
    ++ att_key ++ "\"]' " ++ att_id

/-- The peering attachment import line of `generate_tgw_import` (line 98). -/
def peering_att_import_line (att_key att_id : String) : String :=
  "terraform import 'aws_ec2_transit_gateway_peering_attachment.this[\""
    ++ att_key ++ "\"]' " ++ att_id

/-- `generate_tgw_import` (lines 65-104) as its `lines` list.  The source
first assigns `self.selected_tgw_id = tgw['TransitGatewayId']` (line 75) and
only then calls `collect_all_attachments`, which therefore filters by this
TGW's id. -/
def generate_tgw_import_lines (tgw : Tgw) (inp : InputDir) : List String :=
  let tgw_id := tgw.transitGatewayId
  let all_attachments := collect_all_attachments (some tgw_id) inp
  let vpc_attachments := all_attachments.filter (fun p => p.2.attType == "vpc")
  let peering_attachments :=
    all_attachments.filter (fun p => p.2.attType == "peering")
  ["#!/bin/bash", "set -euo pipefail", ""]
  ++ ["echo 'Importing Transit Gateway...'",
      "terraform import aws_ec2_transit_gateway.this " ++ tgw_id, ""]
  ++ (if vpc_attachments.isEmpty then [] else
      ["echo 'Importing VPC Attachments...'"]
      ++ vpc_attachments.map (fun p => vpc_att_import_line p.2.attKey p.1)
      ++ [""])
  ++ (if peering_attachments.isEmpty then [] else
      ["echo 'Importing Peering Attachments...'"]
      ++ peering_attachments.map (fun p => peering_att_import_line p.2.attKey p.1)
      ++ [""])
  ++ ["echo '✓ Import completed'", ""]

/-- The per-route-table body of `generate_all_imports` (lines 235-323):
`none` when the route table belongs to a different TGW (line 240), else the
path of the generated `import.sh` and its lines. -/
def process_route_table (inp : InputDir)
    (all_attachments : List (String × AttInfo)) (tgw_id tgw_dirname : String)
    (rt : RouteTableRec) : Option (String × List String) :=
  if !(rt.transitGatewayId == some tgw_id) then none
  else
    let rt_id := rt.transitGatewayRouteTableId
    let rt_name := get_tag_value rt.tags "Name" rt_id
    let rt_dirname := sanitize_dirname rt_name
    let associations :=
      match inp.rtAssociations rt_id with
      | none => []
      | some assoc_data =>
        collect_associations all_attachments (assoc_data.associations.getD [])
    let propagations :=
      match inp.rtPropagations rt_id with
      | none => []
      | some prop_data =>
        collect_propagations all_attachments
          (prop_data.transitGatewayRouteTablePropagations.getD [])
    let rt_attachments := build_rt_attachments all_attachments associations propagations
    let routes :=
      match inp.rtRoutes rt_id with
      | none => []
      | some route_data => collect_import_routes (route_data.routes.getD [])
    some (tgw_dirname ++ "-rt-" ++ rt_dirname ++ "/import.sh",
      generate_route_table_import_lines rt_id rt_name rt_attachments
        associations propagations routes)

/-- `generate_all_imports` (lines 198-338): aborts with
`No Transit Gateway found` when the (possibly missing) transit-gateways
document holds no records; otherwise the generated scripts, as
(path, lines) pairs in write order.  Directory creation, chmod and progress
printing have no bearing on the produced script content. -/
def generate_all_imports (inp : InputDir) :
    Except String (List (String × List String)) :=
  let tgws_data := load_json inp.transitGateways ⟨none⟩
  let tgws := tgws_data.transitGateways.getD []
  if tgws.isEmpty then Except.error "No Transit Gateway found"
  else Except.ok (tgws.flatMap (fun tgw =>
    let tgw_id := tgw.transitGatewayId
    let tgw_name := get_tag_value tgw.tags "Name" tgw_id
    let tgw_dirname :=
      if tgw_name != tgw_id then sanitize_dirname tgw_name else tgw_id
    let tgw_script :=
      ("tgw-" ++ tgw_dirname ++ "/import.sh", generate_tgw_import_lines tgw inp)
    let tgw_rts_data := load_json inp.tgwRouteTables ⟨none⟩
    let all_attachments := collect_all_attachments (some tgw_id) inp
    [tgw_script]
    ++ (tgw_rts_data.transitGatewayRouteTables.getD []).filterMap
        (process_route_table inp all_attachments tgw_id tgw_dirname)))

end GenImport

/-- `s` starts with `p` (on the underlying character lists). -/
def strStarts (p s : String) : Bool :=
  s.data.take p.data.length == p.data

/-- Recognizes an (uncommented) route-table-association import line of
`generate_route_table_import`. -/
def is_assoc_import_line (l : String) : Bool :=
  strStarts "terraform import 'aws_ec2_transit_gateway_route_table_association" l

/-- The C1/C2 example input: one TGW `tgw-1` (Name `Main`), two VPC
attachments `tgw-attach-1` (Name `Prod-VPC`) and `tgw-attach-2`
(Name `Shared`), one route table `tgw-rtb-9` (Name `tgw-rt-main`) whose
association file lists both attachments in state `associated`. -/
def c1Input : GenImport.InputDir :=
  ⟨some ⟨some [⟨"tgw-1", some [⟨some "Name", some "Main"⟩]⟩]⟩,
   some ⟨some [⟨"tgw-attach-1", some "tgw-1", some "vpc",
                 some [⟨some "Name", some "Prod-VPC"⟩], some "vpc-1"⟩,
               ⟨"tgw-attach-2", some "tgw-1", some "vpc",
                 some [⟨some "Name", some "Shared"⟩], some "vpc-2"⟩]⟩,
   some ⟨some [⟨"tgw-rtb-9", some "tgw-1",
                 some [⟨some "Name", some "tgw-rt-main"⟩]⟩]⟩,
   fun rt_id =>
     if rt_id == "tgw-rtb-9" then
       some ⟨some [⟨some "associated", some "tgw-attach-1"⟩,
                   ⟨some "associated", some "tgw-attach-2"⟩]⟩
     else none,
   fun _ => none,
   fun _ => none⟩

/-- The scripts `generate_all_imports` produces on `c1Input`. -/
def c1_outputs : List (String × List String) :=
  match GenImport.generate_all_imports c1Input with
  | Except.ok outs => outs
  | Except.error _ => []

/-- The route-table import script of the C1 scenario (the second generated
file, after the TGW-level script). -/
def c1_rt_script : List String := (c1_outputs.getD 1 ("", [])).2

theorem assoc_import_line_mem (rt_id rt_name : String)
    (rt_attachments : List (String × GenImport.AttInfo))
    (associations propagations : List String)
    (routes : List GenImport.RouteInfo) (assoc_key : String)
    (att : GenImport.AttInfo) (hmem : assoc_key ∈ associations)
    (hlook : dictLookup rt_attachments assoc_key = some att) :
    GenImport.assoc_import_line rt_id assoc_key att.attachment_id ∈
      GenImport.generate_route_table_import_lines rt_id rt_name rt_attachments
        associations propagations routes := by
  have hne : associations.isEmpty = false := by
    cases associations with
    | nil => cases hmem
    | cons a l => rfl
  have hsec : GenImport.assoc_import_line rt_id assoc_key att.attachment_id ∈
      ["# Import Route Table Associations"]
      ++ associations.map (fun assoc_key =>
          match dictLookup rt_attachments assoc_key with
          | some att => GenImport.assoc_import_line rt_id assoc_key att.attachment_id
          | none => GenImport.assoc_placeholder_line rt_id assoc_key)
      ++ [""] := by
    apply List.mem_append_left
    apply List.mem_append_right
    refine List.mem_map.mpr ⟨assoc_key, hmem, ?_⟩
    rw [hlook]
  unfold GenImport.generate_route_table_import_lines
  rw [if_neg (by simp [hne])]
  exact List.mem_append_left _ (List.mem_append_left _
    (List.mem_append_left _ (List.mem_append_right _ hsec)))

/-- C1: in `generate_route_table_import`, every association key present in
the route-table attachment map yields the import line whose import id is
`{route_table_id}_{attachment_id}`; and in the concrete two-attachment
scenario (`tgw-attach-1` = `Prod-VPC`, `tgw-attach-2` = `Shared`, both
associated with `tgw-rtb-9`) the generated script holds exactly two
association import lines, with import ids `tgw-rtb-9_tgw-attach-1` and
`tgw-rtb-9_tgw-attach-2`. -/
theorem assoc_import_lines_exact :
    (∀ (rt_id rt_name : String)
       (rt_attachments : List (String × GenImport.AttInfo))
       (associations propagations : List String)
       (routes : List GenImport.RouteInfo) (assoc_key : String)
       (att : GenImport.AttInfo),
       assoc_key ∈ associations →
       dictLookup rt_attachments assoc_key = some att →
       GenImport.assoc_import_line rt_id assoc_key att.attachment_id ∈
         GenImport.generate_route_table_import_lines rt_id rt_name
           rt_attachments associations propagations routes)
    ∧ (GenImport.generate_all_imports c1Input).isOk = true
    ∧ c1_outputs.length = 2
    ∧ c1_rt_script.count
        (GenImport.assoc_import_line "tgw-rtb-9" "prod_vpc" "tgw-attach-1") = 1
    ∧ c1_rt_script.count
        (GenImport.assoc_import_line "tgw-rtb-9" "shared" "tgw-attach-2") = 1
    ∧ (c1_rt_script.filter is_assoc_import_line).length = 2 := by
  refine ⟨assoc_import_line_mem, ?_, ?_, ?_, ?_, ?_⟩ <;> decide

/-- Witness for C1: the general part at a concrete one-association input. -/
theorem assoc_import_lines_exact_witness :
    GenImport.assoc_import_line "tgw-rtb-1" "k" "tgw-attach-7" ∈
      GenImport.generate_route_table_import_lines "tgw-rtb-1" "rt"
        [("k", ⟨"k", "vpc", "K", "tgw-attach-7", "vpc-7"⟩)] ["k"] [] [] :=
  assoc_import_lines_exact.1 "tgw-rtb-1" "rt"
    [("k", ⟨"k", "vpc", "K", "tgw-attach-7", "vpc-7"⟩)] ["k"] [] [] "k"
    ⟨"k", "vpc", "K", "tgw-attach-7", "vpc-7"⟩ (by decide) (by decide)

/-! ### C2: associations referencing an unknown attachment -/

theorem dictLookup_mem {α : Type} (m : List (String × α)) (k : String) (v : α)
    (h : dictLookup m k = some v) : ∃ p, p ∈ m ∧ p.2 = v := by
  unfold dictLookup at h
  cases hf : m.find? (fun p => p.1 == k) with
  | none => rw [hf] at h; cases h
  | some p =>
    rw [hf] at h
    exact ⟨p, List.mem_of_find?_eq_some hf, by simpa using h⟩

theorem dictContains_lookup_isSome {α : Type} (m : List (String × α))
    (k : String) (h : dictContains m k = true) :
    (dictLookup m k).isSome = true := by
  unfold dictContains at h
  simp only [List.any_eq_true] at h
  obtain ⟨p, hp, he⟩ := h
  unfold dictLookup
  have hex : ∃ q ∈ m, (q.1 == k) = true := ⟨p, hp, he⟩
  rw [← List.find?_isSome] at hex
  cases hf : m.find? (fun p => p.1 == k) with
  | none =>
    rw [hf] at hex
    cases hex
  | some q => rfl

/-- The C2 example input: as `c1Input`, but the attachment catalog knows
only `tgw-attach-1`, while the association file of `tgw-rtb-9` references
`tgw-attach-99`, which is absent from the catalog. -/
def c2Input : GenImport.InputDir :=
  ⟨some ⟨some [⟨"tgw-1", some [⟨some "Name", some "Main"⟩]⟩]⟩,
   some ⟨some [⟨"tgw-attach-1", some "tgw-1", some "vpc",
                 some [⟨some "Name", some "Prod-VPC"⟩], some "vpc-1"⟩]⟩,
   some ⟨some [⟨"tgw-rtb-9", some "tgw-1",
                 some [⟨some "Name", some "tgw-rt-main"⟩]⟩]⟩,
   fun rt_id =>
     if rt_id == "tgw-rtb-9" then
       some ⟨some [⟨some "associated", some "tgw-attach-99"⟩]⟩
     else none,
   fun _ => none,
   fun _ => none⟩

/-- The scripts `generate_all_imports` produces on `c2Input`. -/
def c2_outputs : List (String × List String) :=
  match GenImport.generate_all_imports c2Input with
  | Except.ok outs => outs
  | Except.error _ => []

/-- The route-table import script of the C2 scenario. -/
def c2_rt_script : List String := (c2_outputs.getD 1 ("", [])).2

/-- C2 counterexample: with an association referencing the unknown
attachment `tgw-attach-99`, generation completes, but the generated
route-table script contains no commented placeholder import line at all
(and no association import line either): the association is dropped before
`generate_route_table_import` ever sees it, so the claimed placeholder is
not emitted. -/
theorem dangling_assoc_placeholder_cex :
    (GenImport.generate_all_imports c2Input).isOk = true
    ∧ c2_outputs.length = 2
    ∧ (c2_rt_script.filter (fun l => strStarts "# terraform import" l)).length = 0
    ∧ (c2_rt_script.filter is_assoc_import_line).length = 0 := by
  refine ⟨?_, ?_, ?_, ?_⟩ <;> decide

theorem collect_associations_skip_unknown
    (all_attachments : List (String × GenImport.AttInfo))
    (l1 l2 : List AssociationRec) (bad : AssociationRec)
    (h : ∀ i, bad.transitGatewayAttachmentId = some i →
      dictLookup all_attachments i = none) :
    GenImport.collect_associations all_attachments (l1 ++ bad :: l2)
      = GenImport.collect_associations all_attachments (l1 ++ l2) := by
  unfold GenImport.collect_associations
  rw [List.foldl_append, List.foldl_cons, List.foldl_append]
  congr 1
  by_cases hs : (bad.state == some "associated") = true
  · simp only [hs, Bool.not_true, Bool.false_eq_true, if_false]
    cases hb : bad.transitGatewayAttachmentId with
    | none => rfl
    | some i => simp [h i hb]
  · simp only [Bool.not_eq_true'] at hs
    simp [hs]

/-- Once a key is in the accumulator, the association fold of
`build_rt_attachments` keeps it. -/
theorem assoc_fold_preserves_contains
    (all_attachments : List (String × GenImport.AttInfo)) (ks : List String)
    (acc : List (String × GenImport.AttInfo)) (k : String)
    (h : dictContains acc k = true) :
    dictContains (ks.foldl
      (fun rt_attachments assoc_key =>
        match all_attachments.find? (fun p => p.2.attKey == assoc_key) with
        | some p => dictInsert rt_attachments assoc_key p.2
        | none => rt_attachments) acc) k = true := by
  induction ks generalizing acc with
  | nil => exact h
  | cons a t ih =>
    rw [List.foldl_cons]
    cases hf : all_attachments.find? (fun p => p.2.attKey == a) with
    | none => exact ih acc h
    | some p => exact ih _ (dictContains_insert_mono _ _ _ _ h)

/-- Likewise for the propagation fold. -/
theorem prop_fold_preserves_contains
    (all_attachments : List (String × GenImport.AttInfo)) (ks : List String)
    (acc : List (String × GenImport.AttInfo)) (k : String)
    (h : dictContains acc k = true) :
    dictContains (ks.foldl
      (fun rt_attachments prop_key =>
        if dictContains rt_attachments prop_key then rt_attachments
        else
          match all_attachments.find? (fun p => p.2.attKey == prop_key) with
          | some p => dictInsert rt_attachments prop_key p.2
          | none => rt_attachments) acc) k = true := by
  induction ks generalizing acc with
  | nil => exact h
  | cons a t ih =>
    rw [List.foldl_cons]
    by_cases hc : dictContains acc a
    · rw [if_pos hc]
      exact ih acc h
    · rw [if_neg hc]
      cases hf : all_attachments.find? (fun p => p.2.attKey == a) with
      | none => exact ih acc h
      | some p => exact ih _ (dictContains_insert_mono _ _ _ _ h)

/-- A key collected by `collect_associations` is the key of some attachment
in the catalog. -/
theorem collect_associations_key_from_catalog
    (all_attachments : List (String × GenImport.AttInfo))
    (assocs : List AssociationRec) (k : String)
    (h : k ∈ GenImport.collect_associations all_attachments assocs) :
    ∃ p, p ∈ all_attachments ∧ p.2.attKey = k := by
  unfold GenImport.collect_associations at h
  suffices hgen : ∀ (acc : List String),
      k ∈ assocs.foldl
        (fun associations assoc =>
          if !(assoc.state == some "associated") then associations
          else
            match assoc.transitGatewayAttachmentId with
            | none => associations
            | some att_id =>
              match dictLookup all_attachments att_id with
              | some att => associations ++ [att.attKey]
              | none => associations) acc →
      k ∈ acc ∨ ∃ p, p ∈ all_attachments ∧ p.2.attKey = k by
    rcases hgen [] h with h' | h'
    · cases h'
    · exact h'
  clear h
  induction assocs with
  | nil =>
    intro acc h
    exact Or.inl h
  | cons a t ih =>
    intro acc h
    rw [List.foldl_cons] at h
    by_cases hs : (!(a.state == some "associated")) = true
    · rw [if_pos hs] at h
      exact ih acc h
    · rw [if_neg hs] at h
      cases hb : a.transitGatewayAttachmentId with
      | none =>
        rw [hb] at h
        exact ih acc h
      | some i =>
        rw [hb] at h
        cases hl : dictLookup all_attachments i with
        | none =>
          simp only [hl] at h
          exact ih acc h
        | some att =>
          simp only [hl] at h
          rcases ih _ h with h' | h'
          · rcases List.mem_append.mp h' with h'' | h''
            · exact Or.inl h''
            · obtain ⟨p, hp, hv⟩ := dictLookup_mem _ _ _ hl
              refine Or.inr ⟨p, hp, ?_⟩
              rw [hv]
              exact (List.mem_singleton.mp h'').symm
          · exact Or.inr h'

/-- Every key produced by `collect_associations` resolves in the
`rt_attachments` map that `generate_all_imports` builds from it: the
commented-placeholder branch of `generate_route_table_import` is
unreachable on the path through `generate_all_imports`. -/
theorem collected_assoc_key_resolves
    (all_attachments : List (String × GenImport.AttInfo))
    (assocs : List AssociationRec) (propagations : List String) (k : String)
    (h : k ∈ GenImport.collect_associations all_attachments assocs) :
    (dictLookup (GenImport.build_rt_attachments all_attachments
      (GenImport.collect_associations all_attachments assocs) propagations)
      k).isSome = true := by
  apply dictContains_lookup_isSome
  unfold GenImport.build_rt_attachments
  apply prop_fold_preserves_contains
  obtain ⟨p, hp, hk⟩ := collect_associations_key_from_catalog _ _ _ h
  revert h
  generalize GenImport.collect_associations all_attachments assocs = ks
  intro h
  suffices hgen : ∀ (acc : List (String × GenImport.AttInfo)),
      dictContains (ks.foldl
        (fun rt_attachments assoc_key =>
          match all_attachments.find? (fun p => p.2.attKey == assoc_key) with
          | some p => dictInsert rt_attachments assoc_key p.2
          | none => rt_attachments) acc) k = true ∨ ¬ k ∈ ks by
    rcases hgen [] with h' | h'
    · exact h'
    · exact absurd h h'
  clear h
  induction ks with
  | nil =>
    intro acc
    exact Or.inr (by simp)
  | cons a t ih =>
    intro acc
    by_cases hak : a = k
    · subst hak
      left
      rw [List.foldl_cons]
      cases hf : all_attachments.find? (fun q => q.2.attKey == a) with
      | none =>
        exfalso
        have hex : ∃ q ∈ all_attachments, (q.2.attKey == a) = true :=
          ⟨p, hp, by simp [hk]⟩
        rw [← List.find?_isSome] at hex
        rw [hf] at hex
        cases hex
      | some q =>
        exact assoc_fold_preserves_contains _ _ _ _
          (dictContains_insert_self _ _ _)
    · rw [List.foldl_cons]
      cases hf : all_attachments.find? (fun q => q.2.attKey == a) with
      | none =>
        rcases ih acc with h' | h'
        · exact Or.inl h'
        · right
          intro hm
          rcases List.mem_cons.mp hm with h'' | h''
          · exact hak h''.symm
          · exact h' h''
      | some q =>
        rcases ih (dictInsert acc a q.2) with h' | h'
        · exact Or.inl h'
        · right
          intro hm
          rcases List.mem_cons.mp hm with h'' | h''
          · exact hak h''.symm
          · exact h' h''

/-- C2 amended: an association whose attachment id is missing from the
attachment catalog is silently dropped at collection time (removing it from
the association file leaves the collected keys unchanged), every collected
key resolves in the `rt_attachments` map (so the commented-placeholder
branch of `generate_route_table_import` is unreachable through
`generate_all_imports`, and no placeholder line is emitted for the dangling
association), and generation completes without aborting whenever at least
one Transit Gateway exists. -/
theorem dangling_assoc_dropped :
    (∀ (all_attachments : List (String × GenImport.AttInfo))
       (l1 l2 : List AssociationRec) (bad : AssociationRec),
       (∀ i, bad.transitGatewayAttachmentId = some i →
         dictLookup all_attachments i = none) →
       GenImport.collect_associations all_attachments (l1 ++ bad :: l2)
         = GenImport.collect_associations all_attachments (l1 ++ l2))
    ∧ (∀ (all_attachments : List (String × GenImport.AttInfo))
       (assocs : List AssociationRec) (propagations : List String)
       (k : String),
       k ∈ GenImport.collect_associations all_attachments assocs →
       (dictLookup (GenImport.build_rt_attachments all_attachments
         (GenImport.collect_associations all_attachments assocs)
         propagations) k).isSome = true)
    ∧ (∀ inp : GenImport.InputDir,
       ((load_json inp.transitGateways ⟨none⟩).transitGateways.getD
         []).isEmpty = false →
       (GenImport.generate_all_imports inp).isOk = true) := by
  refine ⟨collect_associations_skip_unknown, collected_assoc_key_resolves, ?_⟩
  intro inp h
  unfold GenImport.generate_all_imports
  simp only [h, Bool.false_eq_true, if_false]
  rfl

/-- Witness for C2: a dangling association record contributes nothing, and
generation completes on the concrete input. -/
theorem dangling_assoc_dropped_witness :
    GenImport.collect_associations []
        ([] ++ (⟨some "associated", some "tgw-attach-99"⟩ : AssociationRec) :: [])
      = GenImport.collect_associations [] ([] ++ [])
    ∧ (GenImport.generate_all_imports c2Input).isOk = true :=
  ⟨dangling_assoc_dropped.1 [] [] [] ⟨some "associated", some "tgw-attach-99"⟩
      (fun _ _ => rfl),
   dangling_assoc_dropped.2.2 c2Input (by decide)⟩

/-! ### C10: TGW-level import script only imports the selected TGW's
attachments -/

theorem foldl_filter_skip {α β : Type} (step : β → α → β) (keep : α → Bool)
    (hskip : ∀ acc a, keep a = false → step acc a = acc) (l : List α)
    (acc : β) : l.foldl step acc = (l.filter keep).foldl step acc := by
  induction l generalizing acc with
  | nil => rfl
  | cons a t ih =>
    rw [List.foldl_cons, List.filter_cons]
    by_cases hk : keep a
    · rw [if_pos hk, List.foldl_cons]
      exact ih _
    · rw [hskip acc a (by simpa using hk), if_neg hk]
      exact ih _

/-- The C10 counterexample TGW: its `TransitGatewayId` is the empty string,
which is falsy in Python, so the guard
`if self.selected_tgw_id and ...` in `collect_all_attachments` never
skips anything. -/
def c10Tgw : Tgw := ⟨"", none⟩

/-- An attachment of a different Transit Gateway. -/
def c10Att : Attachment :=
  ⟨"tgw-attach-9", some "tgw-other", some "vpc",
    some [⟨some "Name", some "Foreign"⟩], some "vpc-9"⟩

/-- The C10 counterexample input directory. -/
def c10Input : GenImport.InputDir :=
  ⟨none, some ⟨some [c10Att]⟩, none, fun _ => none, fun _ => none,
    fun _ => none⟩

/-- C10 counterexample: for a TGW whose id is the empty string, the
generated TGW-level import script contains a VPC attachment import command
for an attachment whose `TransitGatewayId` (`tgw-other`) differs from the
TGW's id: the truthiness guard of `collect_all_attachments` disables the
filter entirely. -/
theorem tgw_import_empty_id_cex :
    GenImport.vpc_att_import_line "foreign" "tgw-attach-9" ∈
      GenImport.generate_tgw_import_lines c10Tgw c10Input
    ∧ (c10Att.transitGatewayId == some c10Tgw.transitGatewayId) = false
    ∧ c10Att ∈ (load_json c10Input.tgwAttachments
        ⟨none⟩).transitGatewayAttachments.getD [] := by
  refine ⟨?_, ?_, ?_⟩ <;> decide

/-- C10 amended: for every TGW with a non-empty `TransitGatewayId`
(`generate_tgw_import` assigns `selected_tgw_id` before calling
`collect_all_attachments`), replacing the attachment catalog by its
restriction to attachments of that TGW changes neither the collected
attachment map nor the generated TGW-level import script: every VPC and
peering import command in the script belongs to the selected TGW.  (For a
TGW with an empty id the Python truthiness guard disables the filter, see
the counterexample.) -/
theorem tgw_import_filter_amended (tgw : Tgw)
    (inp inp' : GenImport.InputDir)
    (hsel : tgw.transitGatewayId ≠ "")
    (hatts : (load_json inp'.tgwAttachments
        ⟨none⟩).transitGatewayAttachments.getD []
      = ((load_json inp.tgwAttachments
          ⟨none⟩).transitGatewayAttachments.getD []).filter
          (fun a => a.transitGatewayId == some tgw.transitGatewayId)) :
    GenImport.collect_all_attachments (some tgw.transitGatewayId) inp'
        = GenImport.collect_all_attachments (some tgw.transitGatewayId) inp
    ∧ GenImport.generate_tgw_import_lines tgw inp'
        = GenImport.generate_tgw_import_lines tgw inp := by
  have hcol : GenImport.collect_all_attachments (some tgw.transitGatewayId) inp'
      = GenImport.collect_all_attachments (some tgw.transitGatewayId) inp := by
    unfold GenImport.collect_all_attachments
    dsimp only
    rw [hatts]
    apply Eq.symm
    apply foldl_filter_skip
    intro acc a hk
    have hskipa : GenImport.skip_attachment (some tgw.transitGatewayId) a = true := by
      unfold GenImport.skip_attachment
      have ht : truthyOptStr (some tgw.transitGatewayId) = true := by
        simp only [truthyOptStr, bne_iff_ne, ne_eq]
        exact hsel
      rw [ht, hk]
      rfl
    rw [if_pos hskipa]
  refine ⟨hcol, ?_⟩
  unfold GenImport.generate_tgw_import_lines
  dsimp only
  rw [hcol]

/-- Witness for C10: a two-attachment catalog (one of `tgw-1`, one foreign)
against its filtered restriction. -/
theorem tgw_import_filter_amended_witness :
    GenImport.generate_tgw_import_lines (⟨"tgw-1", none⟩ : Tgw)
        ⟨none, some ⟨some [⟨"tgw-attach-1", some "tgw-1", some "vpc",
            some [⟨some "Name", some "Mine"⟩], some "vpc-1"⟩]⟩, none,
          fun _ => none, fun _ => none, fun _ => none⟩
      = GenImport.generate_tgw_import_lines (⟨"tgw-1", none⟩ : Tgw)
        ⟨none, some ⟨some [⟨"tgw-attach-1", some "tgw-1", some "vpc",
            some [⟨some "Name", some "Mine"⟩], some "vpc-1"⟩,
          ⟨"tgw-attach-9", some "tgw-other", some "vpc",
            some [⟨some "Name", some "Foreign"⟩], some "vpc-9"⟩]⟩, none,
          fun _ => none, fun _ => none, fun _ => none⟩ :=
  (tgw_import_filter_amended ⟨"tgw-1", none⟩
    ⟨none, some ⟨some [⟨"tgw-attach-1", some "tgw-1", some "vpc",
        some [⟨some "Name", some "Mine"⟩], some "vpc-1"⟩,
      ⟨"tgw-attach-9", some "tgw-other", some "vpc",
        some [⟨some "Name", some "Foreign"⟩], some "vpc-9"⟩]⟩, none,
      fun _ => none, fun _ => none, fun _ => none⟩
    ⟨none, some ⟨some [⟨"tgw-attach-1", some "tgw-1", some "vpc",
        some [⟨some "Name", some "Mine"⟩], some "vpc-1"⟩]⟩, none,
      fun _ => none, fun _ => none, fun _ => none⟩
    (by decide) (by decide)).2

namespace GenTerraform

/-- `get_tag_value` of `generate_terraform.py` (lines 38-45); the body is
identical to the one in `generate_import_commands.py`. -/
def get_tag_value : Option (List Tag) → String → String → String :=
  GenImport.get_tag_value

/-- `format_tag_key` (lines 51-55): quote a tag key containing `:`, `-` or
a space. -/
def format_tag_key (key : String) : String :=
  if key.data.contains ':' || key.data.contains '-' || key.data.contains ' '
  then "\"" ++ key ++ "\"" else key

/-- The non-`Name` tag lines appended by each generator's tag loop
(e.g. lines 82-85).  The source indexes `tag['Key']`/`tag['Value']`
directly (AWS always populates them); a missing component is modelled as
the empty string where Python would raise `KeyError`. -/
def render_extra_tags (tags : List Tag) : String :=
  tags.foldl
    (fun code tag =>
      if tag.tagKey.getD "" == "Name" then code
      else code ++ "    " ++ format_tag_key (tag.tagKey.getD "") ++ " = \""
        ++ tag.tagValue.getD "" ++ "\"\n")
    ""

/-- The `Options` object of a Transit Gateway record. -/
structure TfTgwOptions where
  amazonSideAsn : Option Nat
  defaultRouteTableAssociation : Option String
  defaultRouteTablePropagation : Option String
  dnsSupport : Option String
  vpnEcmpSupport : Option String
  autoAcceptSharedAttachments : Option String
deriving DecidableEq

/-- The empty `Options` mapping (`tgw.get('Options', {})`). -/
def emptyTgwOptions : TfTgwOptions := ⟨none, none, none, none, none, none⟩

/-- A Transit Gateway record as read by `generate_terraform.py`. -/
structure TfTgw where
  transitGatewayId : String
  tags : Option (List Tag)
  options : Option TfTgwOptions
  description : Option String
deriving DecidableEq

/-- `generate_transit_gateway` (lines 57-88): (code, resource_name, tgw_id). -/
def generate_transit_gateway (tgw : TfTgw) : String × String × String :=
  let tgw_id := tgw.transitGatewayId
  let name := get_tag_value tgw.tags "Name" tgw_id
  let resource_name := sanitize_resource_name name
  let options := tgw.options.getD emptyTgwOptions
  let description := tgw.description.getD ""
  let description_line :=
    if description != "" then
      "  description                     = \"" ++ description ++ "\"\n"
    else ""
  let tf_code :=
    "# Transit Gateway: " ++ name ++ "\n"
    ++ "resource \"aws_ec2_transit_gateway\" \"" ++ resource_name ++ "\" \x7b\n"
    ++ description_line
    ++ "  amazon_side_asn                 = "
      ++ toString (options.amazonSideAsn.getD 64512) ++ "\n"
    ++ "  default_route_table_association = \""
      ++ options.defaultRouteTableAssociation.getD "enable" ++ "\"\n"
    ++ "  default_route_table_propagation = \""
      ++ options.defaultRouteTablePropagation.getD "enable" ++ "\"\n"
    ++ "  dns_support                     = \""
      ++ options.dnsSupport.getD "enable" ++ "\"\n"
    ++ "  vpn_ecmp_support               = \""
      ++ options.vpnEcmpSupport.getD "enable" ++ "\"\n"
    ++ "  auto_accept_shared_attachments = \""
      ++ options.autoAcceptSharedAttachments.getD "disable" ++ "\"\n"
    ++ "\n  tags = \x7b\n    Name = \"" ++ name ++ "\"\n"
    ++ render_extra_tags (tgw.tags.getD [])
    ++ "  \x7d\n\x7d\n\n"
  (tf_code, resource_name, tgw_id)

/-- `generate_tgw_route_table` (lines 90-110). -/
def generate_tgw_route_table (rt : RouteTableRec) (tgw_resource_name : String) :
    String × String × String :=
  let rt_id := rt.transitGatewayRouteTableId
  let name := get_tag_value rt.tags "Name" rt_id
  let resource_name := sanitize_resource_name name
  let tf_code :=
    "# Transit Gateway Route Table: " ++ name ++ "\n"
    ++ "resource \"aws_ec2_transit_gateway_route_table\" \"" ++ resource_name
      ++ "\" \x7b\n"
    ++ "  transit_gateway_id = aws_ec2_transit_gateway." ++ tgw_resource_name
      ++ ".id\n"
    ++ "\n  tags = \x7b\n    Name = \"" ++ name ++ "\"\n"
    ++ render_extra_tags (rt.tags.getD [])
    ++ "  \x7d\n\x7d\n\n"
  (tf_code, resource_name, rt_id)

/-- The `Options` object of a VPC attachment. -/
structure TfVpcAttOptions where
  applianceModeSupport : Option String
  dnsSupport : Option String
  ipv6Support : Option String
deriving DecidableEq

/-- An attachment record as read by `generate_terraform.py`
(`TransitGatewayId` is indexed directly in `generate_all`, line 321).
`options = none` covers both an absent and a falsy (`None`/`{}`) `Options`
value, matching the source's `attachment.get('Options')` truthiness tests. -/
structure TfAttachment where
  transitGatewayAttachmentId : String
  transitGatewayId : String
  resourceType : Option String
  tags : Option (List Tag)
  resourceId : Option String
  options : Option TfVpcAttOptions
  subnetIds : Option (List String)
deriving DecidableEq

/-- `json.dumps` of a list of strings. -/
def json_dumps_str_list (l : List String) : String :=
  "[" ++ String.intercalate ", " (l.map (fun s => "\"" ++ s ++ "\"")) ++ "]"

/-- `generate_tgw_vpc_attachment` (lines 112-165). -/
def generate_tgw_vpc_attachment (attachment : TfAttachment)
    (tgw_resource_name : String) : String × String × String :=
  let attachment_id := attachment.transitGatewayAttachmentId
  let name := get_tag_value attachment.tags "Name" attachment_id
  let resource_name := sanitize_resource_name name
  if !(attachment.resourceType == some "vpc") then ("", resource_name, attachment_id)
  else
    let options := attachment.options.getD ⟨none, none, none⟩
    let subnet_ids0 := attachment.subnetIds.getD []
    let subnet_ids := if subnet_ids0.isEmpty then ["PLACEHOLDER"] else subnet_ids0
    let ignore_list :=
      (if subnet_ids0.isEmpty then ["subnet_ids"] else [])
      ++ (if attachment.options == none then
          ["appliance_mode_support", "dns_support", "ipv6_support"] else [])
    let lifecycle_block :=
      if ignore_list.isEmpty then ""
      else "\n  lifecycle \x7b\n    ignore_changes = ["
        ++ String.intercalate ", " ignore_list ++ "]\n  \x7d\n"
    let tf_code :=
      "# Transit Gateway VPC Attachment: " ++ name ++ "\n"
      ++ "resource \"aws_ec2_transit_gateway_vpc_attachment\" \""
        ++ resource_name ++ "\" \x7b\n"
      ++ "  transit_gateway_id = aws_ec2_transit_gateway." ++ tgw_resource_name
        ++ ".id\n"
      ++ "  vpc_id             = \"" ++ attachment.resourceId.getD "" ++ "\"\n"
      ++ "  subnet_ids         = " ++ json_dumps_str_list subnet_ids ++ "\n"
      ++ "\n  appliance_mode_support = \""
        ++ options.applianceModeSupport.getD "disable" ++ "\"\n"
      ++ "  dns_support            = \"" ++ options.dnsSupport.getD "enable"
        ++ "\"\n"
      ++ "  ipv6_support           = \"" ++ options.ipv6Support.getD "disable"
        ++ "\"\n"
      ++ lifecycle_block
      ++ "\n  tags = \x7b\n    Name = \"" ++ name ++ "\"\n"
      ++ render_extra_tags (attachment.tags.getD [])
      ++ "  \x7d\n\x7d\n\n"
    (tf_code, resource_name, attachment_id)

/-- `generate_tgw_route_table_association` (lines 167-186): the empty
string when the association's attachment id does not resolve. -/
def generate_tgw_route_table_association (assoc : AssociationRec)
    (rt_resource_name : String)
    (attachment_resources : List (String × String)) : String :=
  match assoc.transitGatewayAttachmentId with
  | none => ""
  | some attachment_id =>
    match dictLookup attachment_resources attachment_id with
    | none => ""
    | some attachment_resource_name =>
      "# Transit Gateway Route Table Association\n"
      ++ "resource \"aws_ec2_transit_gateway_route_table_association\" \""
        ++ rt_resource_name ++ "_assoc_" ++ attachment_resource_name
        ++ "\" \x7b\n"
      ++ "  transit_gateway_attachment_id  = aws_ec2_transit_gateway_vpc_attachment."
        ++ attachment_resource_name ++ ".id\n"
      ++ "  transit_gateway_route_table_id = aws_ec2_transit_gateway_route_table."
        ++ rt_resource_name ++ ".id\n\x7d\n\n"

/-- `generate_tgw_route_table_propagation` (lines 188-207). -/
def generate_tgw_route_table_propagation (prop : PropagationRec)
    (rt_resource_name : String)
    (attachment_resources : List (String × String)) : String :=
  match prop.transitGatewayAttachmentId with
  | none => ""
  | some attachment_id =>
    match dictLookup attachment_resources attachment_id with
    | none => ""
    | some attachment_resource_name =>
      "# Transit Gateway Route Table Propagation\n"
      ++ "resource \"aws_ec2_transit_gateway_route_table_propagation\" \""
        ++ rt_resource_name ++ "_prop_" ++ attachment_resource_name
        ++ "\" \x7b\n"
      ++ "  transit_gateway_attachment_id  = aws_ec2_transit_gateway_vpc_attachment."
        ++ attachment_resource_name ++ ".id\n"
      ++ "  transit_gateway_route_table_id = aws_ec2_transit_gateway_route_table."
        ++ rt_resource_name ++ ".id\n\x7d\n\n"

/-- The CIDR substitution of `generate_tgw_route` (line 223):
`dest_cidr.replace('/', '_').replace('.', '_')` (no `:`). -/
def route_dest_sanitize (dest_cidr : String) : String :=
  String.mk (dest_cidr.data.map cidrReplNoColon)

/-- The CIDR substitution of `generate_vpc_route` (line 260):
`destination.replace('/', '_').replace('.', '_').replace(':', '_')`. -/
def vpc_dest_sanitize (destination : String) : String :=
  String.mk (destination.data.map cidrReplFull)

/-- The fixed prefix of a TGW route resource block. -/
def tgw_route_header (dest_cidr rt_resource_name dest_sanitized : String) :
    String :=
  "# TGW Route: " ++ dest_cidr ++ " in " ++ rt_resource_name ++ "\n"
  ++ "resource \"aws_ec2_transit_gateway_route\" \"" ++ rt_resource_name
    ++ "_route_" ++ dest_sanitized ++ "\" \x7b\n"
  ++ "  destination_cidr_block         = \"" ++ dest_cidr ++ "\"\n"
  ++ "  transit_gateway_route_table_id = aws_ec2_transit_gateway_route_table."
    ++ rt_resource_name ++ ".id\n"

/-- The attachment-reference line of a non-blackhole TGW route (line 236). -/
def tgw_route_attachment_line (attachment_resource : String) : String :=
  "  transit_gateway_attachment_id  = aws_ec2_transit_gateway_vpc_attachment."
    ++ attachment_resource ++ ".id\n"

/-- `generate_tgw_route` (lines 209-239).  The source evaluates
`route.get('TransitGatewayAttachments', [{}])[0]` before anything else past
the propagated/empty-destination guards; when the key is present but holds
an empty list, `[0]` raises `IndexError`, modelled as `Except.error`.  The
`rt_id` parameter is accepted and unused, exactly as in the source. -/
def generate_tgw_route (route : RouteRec) (rt_resource_name rt_id : String)
    (attachment_resources : List (String × String)) : Except String String :=
  let dest_cidr := route.destinationCidrBlock.getD ""
  if dest_cidr == "" then Except.ok ""
  else if route.routeType == some "propagated" then Except.ok ""
  else
    match (route.transitGatewayAttachments.getD [⟨none⟩]).head? with
    | none => Except.error "IndexError: list index out of range"
    | some first =>
      let attachment_id := first.transitGatewayAttachmentId
      let is_blackhole := route.state == some "blackhole"
      let dest_sanitized := route_dest_sanitize dest_cidr
      let body :=
        if is_blackhole then "  blackhole              = true\n"
        else if truthyOptStr attachment_id then
          match dictLookup attachment_resources (attachment_id.getD "") with
          | some attachment_resource => tgw_route_attachment_line attachment_resource
          | none => ""
        else ""
      Except.ok (tgw_route_header dest_cidr rt_resource_name dest_sanitized
        ++ body ++ "\x7d\n\n")

/-- One entry of `route-tables.json` routes. -/
structure VpcRoute where
  transitGatewayId : Option String
  destinationCidrBlock : Option String
  destinationIpv6CidrBlock : Option String
deriving DecidableEq

/-- One record of `route-tables.json` / `RouteTables`. -/
structure VpcRouteTable where
  routeTableId : String
  tags : Option (List Tag)
  routes : Option (List VpcRoute)
deriving DecidableEq

/-- `generate_vpc_route` (lines 241-272). -/
def generate_vpc_route (route_table : VpcRouteTable) : String :=
  let rt_id := route_table.routeTableId
  let name := get_tag_value route_table.tags "Name" rt_id
  let resource_name_base := sanitize_resource_name name
  (route_table.routes.getD []).foldl
    (fun tf_code route =>
      match route.transitGatewayId with
      | none => tf_code
      | some tgw_id =>
        let destination :=
          route.destinationCidrBlock.getD (route.destinationIpv6CidrBlock.getD "")
        if destination == "" || destination == "local" then tf_code
        else
          let dest_sanitized := vpc_dest_sanitize destination
          let resource_name := resource_name_base ++ "_to_" ++ dest_sanitized
          tf_code
          ++ "# Route: " ++ destination ++ " via TGW in " ++ name ++ "\n"
          ++ "resource \"aws_route\" \"" ++ resource_name ++ "\" \x7b\n"
          ++ "  route_table_id         = \"" ++ rt_id ++ "\"\n"
          ++ "  destination_cidr_block = \"" ++ destination ++ "\"\n"
          ++ "  transit_gateway_id     = \"" ++ tgw_id ++ "\"\n\x7d\n\n")
    ""

end GenTerraform

namespace GenTerraform

/-- Document `transit-gateways.json` for this script. -/
structure TfTgwDoc where
  transitGateways : Option (List TfTgw)

/-- Document `tgw-attachments.json` for this script. -/
structure TfAttDoc where
  transitGatewayAttachments : Option (List TfAttachment)

/-- Document `route-tables.json`. -/
structure VpcRtDoc where
  routeTables : Option (List VpcRouteTable)

/-- The input directory of `generate_terraform.py`. -/
structure TfInputDir where
  transitGateways : Option TfTgwDoc
  tgwRouteTables : Option RtDoc
  tgwAttachments : Option TfAttDoc
  routeTables : Option VpcRtDoc
  rtAssociations : String → Option AssocDoc
  rtPropagations : String → Option PropDoc
  rtRoutes : String → Option RouteDoc

/-- The `provider.tf` content (lines 385-399). -/
def provider_code (region : String) : String :=
  "terraform \x7b\n  required_version = \">= 1.5\"\n\n  required_providers \x7b\n"
  ++ "    aws = \x7b\n      source  = \"hashicorp/aws\"\n      version = \"~> 5.0\"\n"
  ++ "    \x7d\n  \x7d\n\x7d\n\nprovider \"aws\" \x7b\n  region = \"" ++ region
  ++ "\"\n\x7d\n"

/-- `generate_all` of `generate_terraform.py` (lines 281-409): the
(filename, content) pairs in write order.  The source contains no
`raise` and no zero-TGW check: with no Transit Gateway records every loop
body is skipped and header-only files are written.  The only modelled
failure is the `IndexError` that `generate_tgw_route` can raise (propagated
through the route loop); the `KeyError`s Python would raise on records
missing an always-populated field are typed away by the record shapes. -/
def generate_all (region : String) (inp : TfInputDir) :
    Except String (List (String × String)) :=
  let tgws_data := load_json inp.transitGateways ⟨none⟩
  let tgw_rts_data := load_json inp.tgwRouteTables ⟨none⟩
  let tgw_attachments_data := load_json inp.tgwAttachments ⟨none⟩
  let route_tables_data := load_json inp.routeTables ⟨none⟩
  let tgwAcc := (tgws_data.transitGateways.getD []).foldl
    (fun (acc : String × List (String × String)) tgw =>
      let r := generate_transit_gateway tgw
      (acc.1 ++ r.1, dictInsert acc.2 r.2.2 r.2.1))
    ("# Transit Gateways\n\n", [])
  let tgw_code := tgwAcc.1
  let tgw_resources := tgwAcc.2
  let rtAcc := (tgw_rts_data.transitGatewayRouteTables.getD []).foldl
    (fun (acc : String × List (String × String)) rt =>
      match dictLookup tgw_resources (rt.transitGatewayId.getD "") with
      | none => acc
      | some tgw_resource_name =>
        let r := generate_tgw_route_table rt tgw_resource_name
        (acc.1 ++ r.1, dictInsert acc.2 r.2.2 r.2.1))
    ("# Transit Gateway Route Tables\n\n", [])
  let rt_code := rtAcc.1
  let rt_resources := rtAcc.2
  let attAcc := (tgw_attachments_data.transitGatewayAttachments.getD []).foldl
    (fun (acc : String × List (String × String)) attachment =>
      match dictLookup tgw_resources attachment.transitGatewayId with
      | none => acc
      | some tgw_resource_name =>
        let r := generate_tgw_vpc_attachment attachment tgw_resource_name
        if r.1 != "" then (acc.1 ++ r.1, dictInsert acc.2 r.2.2 r.2.1)
        else acc)
    ("# Transit Gateway VPC Attachments\n\n", [])
  let attachment_code := attAcc.1
  let attachment_resources := attAcc.2
  let assoc_code := rt_resources.foldl
    (fun code p =>
      let withAssocs := code ++
        (match inp.rtAssociations p.1 with
        | none => ""
        | some assoc_data =>
          (assoc_data.associations.getD []).foldl
            (fun c assoc =>
              c ++ generate_tgw_route_table_association assoc p.2
                attachment_resources) "")
      withAssocs ++
        (match inp.rtPropagations p.1 with
        | none => ""
        | some prop_data =>
          (prop_data.transitGatewayRouteTablePropagations.getD []).foldl
            (fun c prop =>
              c ++ generate_tgw_route_table_propagation prop p.2
                attachment_resources) ""))
    "# Transit Gateway Route Table Associations and Propagations\n\n"
  do
    let tgw_routes_code ← rt_resources.foldlM
      (fun code p =>
        match inp.rtRoutes p.1 with
        | none => pure code
        | some routes_data =>
          (routes_data.routes.getD []).foldlM
            (fun c route => do
              let r ← generate_tgw_route route p.2 p.1 attachment_resources
              pure (if r != "" then c ++ r else c))
            code)
      "# Transit Gateway Routes\n\n"
    let routes_code := (route_tables_data.routeTables.getD []).foldl
      (fun code rt =>
        let c := generate_vpc_route rt
        if c != "" then code ++ c else code)
      "# VPC Routes to Transit Gateway\n\n"
    pure [("transit_gateways.tf", tgw_code),
      ("tgw_route_tables.tf", rt_code),
      ("tgw_attachments.tf", attachment_code),
      ("tgw_associations.tf", assoc_code),
      ("tgw_routes.tf", tgw_routes_code),
      ("vpc_routes.tf", routes_code),
      ("provider.tf", provider_code region)]

end GenTerraform

namespace GenConfig

/-- `get_tag_value` of `generate_terraform_config.py` (lines 242-249); the
body is identical to the one in `generate_import_commands.py`. -/
def get_tag_value : Option (List Tag) → String → String → String :=
  GenImport.get_tag_value

/-- Python truthiness of a plain string. -/
def truthyStr (s : String) : Bool := s != ""

/-- The `Options` object of a Transit Gateway record as read by this
script. -/
structure CfgTgwOptions where
  defaultRouteTableAssociation : Option String
  defaultRouteTablePropagation : Option String
  autoAcceptSharedAttachments : Option String
  dnsSupport : Option String
  vpnEcmpSupport : Option String
  amazonSideAsn : Option Nat
  description : Option String
deriving DecidableEq

/-- The empty `Options` mapping (`tgw.get('Options', {})`). -/
def emptyCfgOptions : CfgTgwOptions := ⟨none, none, none, none, none, none, none⟩

/-- A Transit Gateway record as read by `generate_terraform_config.py`. -/
structure CfgTgw where
  transitGatewayId : String
  tags : Option (List Tag)
  options : Option CfgTgwOptions
  ownerId : Option String
deriving DecidableEq

/-- The selection predicate of `generate_shared_locals` (line 307):
`options.get('DefaultRouteTableAssociation') == 'disable'`. -/
def is_disable_tgw (tgw : CfgTgw) : Bool :=
  (tgw.options.getD emptyCfgOptions).defaultRouteTableAssociation
    == some "disable"

/-- The TGW selection of `generate_shared_locals` (lines 302-315): the first
TGW whose default-route-table-association option is `disable`; otherwise the
first TGW, with a warning (the `Bool`) printed exactly when more than one
TGW is present.  `none` only on an empty list (the caller raises first). -/
def select_tgw (tgws : List CfgTgw) : Option (CfgTgw × Bool) :=
  match tgws.find? is_disable_tgw with
  | some t => some (t, false)
  | none =>
    match tgws with
    | [] => none
    | t :: rest => some (t, !rest.isEmpty)

/-- One record of `tgw-vpc-attachment-{id}.json`. -/
structure VpcAttDetail where
  subnetIds : Option (List String)
deriving DecidableEq

/-- Document `tgw-vpc-attachment-{id}.json`. -/
structure VpcAttDetailDoc where
  transitGatewayVpcAttachments : Option (List VpcAttDetail)

/-- The `AccepterTgwInfo` object of a peering attachment detail. -/
structure AccepterTgwInfo where
  transitGatewayId : Option String
  region : Option String
  ownerId : Option String
deriving DecidableEq

/-- One record of `tgw-peering-attachment-{id}.json`. -/
structure PeerDetail where
  accepterTgwInfo : Option AccepterTgwInfo
deriving DecidableEq

/-- Document `tgw-peering-attachment-{id}.json`. -/
structure PeerAttDetailDoc where
  transitGatewayPeeringAttachments : Option (List PeerDetail)

/-- Document `transit-gateways.json` for this script. -/
structure CfgTgwDoc where
  transitGateways : Option (List CfgTgw)

/-- The input directory of `generate_terraform_config.py`
(`route-tables.json` is loaded at line 724 but never used, and is not
modelled). -/
structure CfgInputDir where
  transitGateways : Option CfgTgwDoc
  tgwAttachments : Option AttDoc
  tgwRouteTables : Option RtDoc
  rtAssociations : String → Option AssocDoc
  rtPropagations : String → Option PropDoc
  rtRoutes : String → Option RouteDoc
  vpcAttachmentDetail : String → Option VpcAttDetailDoc
  peeringAttachmentDetail : String → Option PeerAttDetailDoc

/-- The VPC attachment value stored by `generate_shared_locals`
(lines 375-380). -/
structure VpcAttVal where
  name : String
  vpc_id : String
  subnet_ids : List String
  attachment_id : String
deriving DecidableEq

/-- The peering attachment value (lines 397-403). -/
structure PeerAttVal where
  name : String
  peer_transit_gateway_id : String
  peer_region : String
  peer_account_id : String
  attachment_id : String
deriving DecidableEq

/-- The VPN attachment value (lines 406-410). -/
structure VpnAttVal where
  name : String
  attachment_id : String
  vpn_connection_id : String
deriving DecidableEq

/-- The Direct Connect gateway attachment value (lines 413-417). -/
structure DxAttVal where
  name : String
  attachment_id : String
  dx_gateway_id : String
deriving DecidableEq

/-- The four key-indexed attachment maps `generate_shared_locals` builds
(lines 349-417). -/
structure SharedMaps where
  vpc_attachments : List (String × VpcAttVal)
  peering_attachments : List (String × PeerAttVal)
  vpn_attachments : List (String × VpnAttVal)
  dx_gateway_attachments : List (String × DxAttVal)
deriving DecidableEq

/-- The VPC attachment value built at lines 364-380 (subnet ids read from
the per-attachment detail file when it exists). -/
def mk_vpc_att_val (inp : CfgInputDir) (attachment : Attachment) : VpcAttVal :=
  let attachment_id := attachment.transitGatewayAttachmentId
  let name := get_tag_value attachment.tags "Name" attachment_id
  let vpc_id := attachment.resourceId.getD ""
  let subnet_ids :=
    match inp.vpcAttachmentDetail attachment_id with
    | none => []
    | some d =>
      match d.transitGatewayVpcAttachments.getD [] with
      | [] => []
      | v :: _ => v.subnetIds.getD []
  ⟨name, vpc_id, subnet_ids, attachment_id⟩

/-- The peering attachment value built at lines 382-403. -/
def mk_peer_att_val (inp : CfgInputDir) (attachment : Attachment) : PeerAttVal :=
  let attachment_id := attachment.transitGatewayAttachmentId
  let name := get_tag_value attachment.tags "Name" attachment_id
  match inp.peeringAttachmentDetail attachment_id with
  | none => ⟨name, "", "", "", attachment_id⟩
  | some d =>
    match d.transitGatewayPeeringAttachments.getD [] with
    | [] => ⟨name, "", "", "", attachment_id⟩
    | peering :: _ =>
      let info := peering.accepterTgwInfo.getD ⟨none, none, none⟩
      ⟨name, info.transitGatewayId.getD "", info.region.getD "",
        info.ownerId.getD "", attachment_id⟩

/-- The VPN attachment value built at lines 405-410. -/
def mk_vpn_att_val (attachment : Attachment) : VpnAttVal :=
  let attachment_id := attachment.transitGatewayAttachmentId
  ⟨get_tag_value attachment.tags "Name" attachment_id, attachment_id,
    attachment.resourceId.getD ""⟩

/-- The DX gateway attachment value built at lines 412-417. -/
def mk_dx_att_val (attachment : Attachment) : DxAttVal :=
  let attachment_id := attachment.transitGatewayAttachmentId
  ⟨get_tag_value attachment.tags "Name" attachment_id, attachment_id,
    attachment.resourceId.getD ""⟩

/-- One iteration of the attachment loop of `generate_shared_locals`
(lines 354-417): skip attachments of other TGWs (line 356, no truthiness
guard here), then store the value in the map of the attachment's resource
type under the sanitized name key. -/
def shared_att_step (sel : String) (inp : CfgInputDir) (maps : SharedMaps)
    (attachment : Attachment) : SharedMaps :=
  if !(attachment.transitGatewayId == some sel) then maps
  else
    let attKey := sanitize_key
      (get_tag_value attachment.tags "Name" attachment.transitGatewayAttachmentId)
    let resource_type := attachment.resourceType.getD ""
    if resource_type == "vpc" then
      ⟨dictInsert maps.vpc_attachments attKey (mk_vpc_att_val inp attachment),
        maps.peering_attachments, maps.vpn_attachments,
        maps.dx_gateway_attachments⟩
    else if resource_type == "peering" then
      ⟨maps.vpc_attachments,
        dictInsert maps.peering_attachments attKey (mk_peer_att_val inp attachment),
        maps.vpn_attachments, maps.dx_gateway_attachments⟩
    else if resource_type == "vpn" then
      ⟨maps.vpc_attachments, maps.peering_attachments,
        dictInsert maps.vpn_attachments attKey (mk_vpn_att_val attachment),
        maps.dx_gateway_attachments⟩
    else if resource_type == "direct-connect-gateway" then
      ⟨maps.vpc_attachments, maps.peering_attachments, maps.vpn_attachments,
        dictInsert maps.dx_gateway_attachments attKey (mk_dx_att_val attachment)⟩
    else maps

/-- The attachment-map construction of `generate_shared_locals` over a given
attachment list. -/
def collect_shared_attachments (sel : String) (inp : CfgInputDir)
    (atts : List Attachment) : SharedMaps :=
  atts.foldl (shared_att_step sel inp) ⟨[], [], [], []⟩

/-- The data `generate_shared_locals` (lines 294-480) gathers: the selected
TGW id, whether the multiple-TGW warning was printed, and the four
attachment maps.  The HCL text rendering (lines 329-480), which writes the
maps out verbatim in iteration order, is not modelled. -/
def shared_locals_data (inp : CfgInputDir) :
    Except String (String × Bool × SharedMaps) :=
  let tgws_data := load_json inp.transitGateways ⟨none⟩
  let tgws := tgws_data.transitGateways.getD []
  match select_tgw tgws with
  | none => Except.error "No Transit Gateway found"
  | some (tgw, warned) =>
    let selected_tgw_id := tgw.transitGatewayId
    let tgw_attachments_data := load_json inp.tgwAttachments ⟨none⟩
    Except.ok (selected_tgw_id, warned,
      collect_shared_attachments selected_tgw_id inp
        (tgw_attachments_data.transitGatewayAttachments.getD []))

end GenConfig

namespace GenConfig

/-- The fields of a config-script catalog entry the collection loops
consult (`att['key']` and `att['type']`); the record the source's
`collect_all_attachments` builds (lines 561-567 and onward) carries more
fields, none of which the route-table collection reads. -/
structure CfgAttInfo where
  attKey : String
  attType : String
deriving DecidableEq

/-- The association-collection loop of `generate_all_configs`
(lines 751-763): keep state `associated`, resolve the attachment, record
`(att['key'], att['key'], att['type'])`. -/
def collect_config_associations (all_attachments : List (String × CfgAttInfo))
    (assocs : List AssociationRec) : List (String × String × String) :=
  assocs.foldl
    (fun associations assoc =>
      if !(assoc.state == some "associated") then associations
      else
        match assoc.transitGatewayAttachmentId with
        | none => associations
        | some att_id =>
          match dictLookup all_attachments att_id with
          | some att => associations ++ [(att.attKey, att.attKey, att.attType)]
          | none => associations)
    []

/-- The propagation-collection loop of `generate_all_configs`
(lines 765-777). -/
def collect_config_propagations (all_attachments : List (String × CfgAttInfo))
    (props : List PropagationRec) : List (String × String × String) :=
  props.foldl
    (fun propagations prop =>
      if !(prop.state == some "enabled") then propagations
      else
        match prop.transitGatewayAttachmentId with
        | none => propagations
        | some att_id =>
          match dictLookup all_attachments att_id with
          | some att => propagations ++ [(att.attKey, att.attKey, att.attType)]
          | none => propagations)
    []

/-- A collected route entry (lines 797-801 plus the optional
`attachment_key`/`attachment_type` of lines 803-811). -/
structure CfgRouteEntry where
  routeKey : String
  destination_cidr_block : String
  blackhole : Bool
  attachment_key : Option String
  attachment_type : Option String
deriving DecidableEq

/-- The CIDR-key substitution of `generate_all_configs` (line 792):
`dest_cidr.replace('/', '_').replace('.', '_').replace(':', '_')`. -/
def config_sanitize_cidr (dest_cidr : String) : String :=
  String.mk (dest_cidr.data.map cidrReplFull)

/-- The attachment resolution for a non-blackhole route (lines 804-811):
the first entry of the route's `TransitGatewayAttachments` whose id is in
the catalog. -/
def find_route_attachment (all_attachments : List (String × CfgAttInfo))
    (route : RouteRec) : Option (String × String) :=
  (route.transitGatewayAttachments.getD []).findSome?
    (fun att_info =>
      match att_info.transitGatewayAttachmentId with
      | none => none
      | some att_id =>
        (dictLookup all_attachments att_id).map
          (fun att => (att.attKey, att.attType)))

/-- The route entry built for one kept route record (lines 791-811). -/
def mk_config_route_entry (all_attachments : List (String × CfgAttInfo))
    (route : RouteRec) : CfgRouteEntry :=
  let dest_cidr := route.destinationCidrBlock.getD ""
  let route_key := "route_" ++ config_sanitize_cidr dest_cidr
  let is_blackhole := route.state == some "blackhole"
  let found :=
    if is_blackhole then none else find_route_attachment all_attachments route
  ⟨route_key, dest_cidr, is_blackhole, found.map (fun p => p.1),
    found.map (fun p => p.2)⟩

/-- The route-collection loop of `generate_all_configs` (lines 779-813):
skip propagated routes and routes without a destination, keep the rest. -/
def collect_config_routes (all_attachments : List (String × CfgAttInfo))
    (rs : List RouteRec) : List CfgRouteEntry :=
  rs.foldl
    (fun routes route =>
      if route.routeType == some "propagated" then routes
      else
        let dest_cidr := route.destinationCidrBlock.getD ""
        if dest_cidr == "" then routes
        else routes ++ [mk_config_route_entry all_attachments route])
    []

/-- The lines one association/propagation entry contributes to `locals.tf`
(lines 502-506 / 513-517). -/
def render_assoc_entry (p : String × String × String) : List String :=
  ["    " ++ p.1 ++ " = \x7b",
   "      attachment_key  = \"" ++ p.2.1 ++ "\"",
   "      attachment_type = \"" ++ p.2.2 ++ "\"",
   "    \x7d"]

/-- The lines one route entry contributes to `locals.tf` (lines 524-533):
the attachment reference lines only under `if route.get('attachment_key')`
(Python truthiness), the blackhole line only under `route.get('blackhole')`. -/
def render_route_entry (route : CfgRouteEntry) : List String :=
  ["    " ++ route.routeKey ++ " = \x7b",
   "      destination_cidr_block = \"" ++ route.destination_cidr_block ++ "\""]
  ++ (if truthyOptStr route.attachment_key then
      ["      attachment_key         = \"" ++ route.attachment_key.getD ""
        ++ "\"",
       "      attachment_type        = \"" ++ route.attachment_type.getD ""
        ++ "\""]
    else [])
  ++ (if route.blackhole then ["      blackhole              = true"] else [])
  ++ ["    \x7d"]

/-- `json.dumps` of a flat string-to-string mapping. -/
def json_dumps_tags (m : List (String × String)) : String :=
  "\x7b" ++ String.intercalate ", "
    (m.map (fun p => "\"" ++ p.1 ++ "\": \"" ++ p.2 ++ "\"")) ++ "\x7d"

/-- `generate_route_table_locals` (lines 482-546) as its `lines` list.  The
source function also receives `rt_id` and `attachments_data`, both unused
in its body; they are omitted here. -/
def generate_route_table_locals_lines (rt_name : String)
    (rt_tags : List (String × String))
    (associations propagations : List (String × String × String))
    (routes : List CfgRouteEntry) : List String :=
  ["# Route Table Configuration",
   "# This file defines all resources associated with this specific route table",
   "",
   "locals \x7b",
   "  route_table_name = \"" ++ rt_name ++ "\"",
   ""]
  ++ ["  # Route Table Associations", "  associations = \x7b"]
  ++ associations.flatMap render_assoc_entry ++ ["  \x7d", ""]
  ++ ["  # Route Table Propagations", "  propagations = \x7b"]
  ++ propagations.flatMap render_assoc_entry ++ ["  \x7d", ""]
  ++ ["  # Transit Gateway Routes", "  tgw_routes = \x7b"]
  ++ routes.flatMap render_route_entry ++ ["  \x7d", ""]
  ++ ["  # Tags specific to this route table"]
  ++ [if rt_tags.isEmpty then "  route_table_tags = \x7b\x7d"
      else "  route_table_tags = " ++ json_dumps_tags rt_tags]
  ++ ["\x7d", ""]

/-- The tag dictionary comprehension of line 739
(`{tag['Key']: tag['Value'] for tag in rt.get('Tags', []) if 'Key' in tag}`;
a present `Key` with a missing `Value`, where Python would raise, is
modelled as the empty string). -/
def tags_dict (tags : Option (List Tag)) : List (String × String) :=
  (tags.getD []).foldl
    (fun acc tag =>
      match tag.tagKey with
      | none => acc
      | some k => dictInsert acc k (tag.tagValue.getD ""))
    []

/-- The per-route-table body of `generate_all_configs` (lines 736-849):
the directory name and `locals.tf` lines generated for one route table.
The constant `versions.tf`/`data.tf`/`main.tf` templates written alongside
(lines 747-749) and the unused `rt_attachments` map (lines 815-839) are
not modelled. -/
def config_rt_entry (all_attachments : List (String × CfgAttInfo))
    (inp : CfgInputDir) (rt : RouteTableRec) : String × List String :=
  let rt_id := rt.transitGatewayRouteTableId
  let rt_name := get_tag_value rt.tags "Name" rt_id
  let rt_tags := tags_dict rt.tags
  let rt_dirname := sanitize_dirname rt_name
  let associations :=
    match inp.rtAssociations rt_id with
    | none => []
    | some assoc_data =>
      collect_config_associations all_attachments
        (assoc_data.associations.getD [])
  let propagations :=
    match inp.rtPropagations rt_id with
    | none => []
    | some prop_data =>
      collect_config_propagations all_attachments
        (prop_data.transitGatewayRouteTablePropagations.getD [])
  let routes :=
    match inp.rtRoutes rt_id with
    | none => []
    | some routes_data =>
      collect_config_routes all_attachments (routes_data.routes.getD [])
  ("rt-" ++ rt_dirname,
    generate_route_table_locals_lines rt_name rt_tags associations
      propagations routes)

/-- The per-route-table loop of `generate_all_configs` (lines 730-849):
which route tables are emitted.  Note the truthiness guard of line 735
(`if self.selected_tgw_id and rt_tgw_id != self.selected_tgw_id`): with an
empty selected id nothing is skipped. -/
def config_rt_outputs (selected_tgw_id : String)
    (all_attachments : List (String × CfgAttInfo)) (inp : CfgInputDir) :
    List (String × List String) :=
  ((load_json inp.tgwRouteTables ⟨none⟩).transitGatewayRouteTables.getD
    []).filterMap
    (fun rt =>
      if truthyStr selected_tgw_id
          && !(rt.transitGatewayId == some selected_tgw_id) then none
      else some (config_rt_entry all_attachments inp rt))

/-- `generate_all_configs` (lines 636-860): the shared-locals data of the
`tgw/` directory followed by the per-route-table outputs.  The
`all_attachments` catalog is the result of `collect_all_attachments`
(lines 548-634), taken as a parameter; the claims do not depend on its
construction. -/
def generate_all_configs (inp : CfgInputDir)
    (all_attachments : List (String × CfgAttInfo)) :
    Except String ((String × Bool × SharedMaps) × List (String × List String)) :=
  match shared_locals_data inp with
  | Except.error e => Except.error e
  | Except.ok sd => Except.ok (sd, config_rt_outputs sd.1 all_attachments inp)

end GenConfig

/-! ### C4: missing files and the zero-TGW case -/

/-- A completely empty input directory for `generate_terraform.py`: no file
exists, so every `load_json` yields an empty document. -/
def emptyTfInput : GenTerraform.TfInputDir :=
  ⟨none, none, none, none, fun _ => none, fun _ => none, fun _ => none⟩

/-- C4 counterexample: a run of `generate_terraform.py` with zero Transit
Gateway records (here: no input file at all) is not a hard failure: its
`generate_all` contains no zero-TGW check, completes, and writes
header-only files plus `provider.tf`. -/
theorem zero_tgw_no_abort_cex :
    ((load_json emptyTfInput.transitGateways
      ⟨none⟩).transitGateways.getD []).length = 0
    ∧ GenTerraform.generate_all "ap-northeast-1" emptyTfInput = Except.ok
      [("transit_gateways.tf", "# Transit Gateways\n\n"),
       ("tgw_route_tables.tf", "# Transit Gateway Route Tables\n\n"),
       ("tgw_attachments.tf", "# Transit Gateway VPC Attachments\n\n"),
       ("tgw_associations.tf",
         "# Transit Gateway Route Table Associations and Propagations\n\n"),
       ("tgw_routes.tf", "# Transit Gateway Routes\n\n"),
       ("vpc_routes.tf", "# VPC Routes to Transit Gateway\n\n"),
       ("provider.tf", GenTerraform.provider_code "ap-northeast-1")] :=
  ⟨rfl, rfl⟩

/-- C4 amended: `load_json` returns the empty document, without raising,
whenever the named file is absent (it is defined identically in every
generator script); a run with zero Transit Gateway records aborts with
`No Transit Gateway found` in `generate_import_commands.py` and
`generate_terraform_config.py` — but not in `generate_terraform.py`, whose
`generate_all` completes and emits header-only files (see the
counterexample). -/
theorem load_json_and_zero_tgw_amended :
    (∀ (α : Type) (e : α), load_json (none : Option α) e = e)
    ∧ (∀ inp : GenImport.InputDir,
       (load_json inp.transitGateways ⟨none⟩).transitGateways.getD [] = [] →
       GenImport.generate_all_imports inp
         = Except.error "No Transit Gateway found")
    ∧ (∀ inp : GenConfig.CfgInputDir,
       (load_json inp.transitGateways ⟨none⟩).transitGateways.getD [] = [] →
       GenConfig.shared_locals_data inp
         = Except.error "No Transit Gateway found") := by
  refine ⟨fun α e => rfl, ?_, ?_⟩
  · intro inp h
    unfold GenImport.generate_all_imports
    dsimp only
    rw [h]
    rfl
  · intro inp h
    unfold GenConfig.shared_locals_data
    dsimp only
    rw [h]
    rfl

/-- Witness for C4: the three parts at concrete inputs. -/
theorem load_json_and_zero_tgw_amended_witness :
    load_json (none : Option Nat) 7 = 7
    ∧ GenImport.generate_all_imports
        ⟨none, none, none, fun _ => none, fun _ => none, fun _ => none⟩
        = Except.error "No Transit Gateway found"
    ∧ GenConfig.shared_locals_data
        ⟨none, none, none, fun _ => none, fun _ => none, fun _ => none,
          fun _ => none, fun _ => none⟩
        = Except.error "No Transit Gateway found" :=
  ⟨load_json_and_zero_tgw_amended.1 Nat 7,
   load_json_and_zero_tgw_amended.2.1 _ rfl,
   load_json_and_zero_tgw_amended.2.2 _ rfl⟩

/-! ### C6: propagated routes are never emitted -/

theorem cidrReplFull_ne_dom (c : Char) :
    cidrReplFull c ≠ '/' ∧ cidrReplFull c ≠ '.' ∧ cidrReplFull c ≠ ':' := by
  unfold cidrReplFull
  split_ifs <;> refine ⟨?_, ?_, ?_⟩ <;> first | decide | assumption

theorem cidrReplNoColon_ne_dom (c : Char) :
    cidrReplNoColon c ≠ '/' ∧ cidrReplNoColon c ≠ '.' := by
  unfold cidrReplNoColon
  split_ifs <;> refine ⟨?_, ?_⟩ <;> first | decide | assumption

/-- C6: a route of type `propagated` never yields an import command or a
configuration entry: `generate_tgw_route` returns the empty string for it,
and removing all propagated routes from the input leaves the route
collections of `generate_all_imports` (which keeps only `static` routes)
and of `generate_all_configs` unchanged. -/
theorem propagated_routes_skipped :
    (∀ (route : RouteRec) (rt_resource_name rt_id : String)
       (attachment_resources : List (String × String)),
       route.routeType = some "propagated" →
       GenTerraform.generate_tgw_route route rt_resource_name rt_id
         attachment_resources = Except.ok "")
    ∧ (∀ rs : List RouteRec,
       GenImport.collect_import_routes rs
         = GenImport.collect_import_routes
             (rs.filter (fun r => !(r.routeType == some "propagated"))))
    ∧ (∀ (all_attachments : List (String × GenConfig.CfgAttInfo))
       (rs : List RouteRec),
       GenConfig.collect_config_routes all_attachments rs
         = GenConfig.collect_config_routes all_attachments
             (rs.filter (fun r => !(r.routeType == some "propagated")))) := by
  refine ⟨?_, ?_, ?_⟩
  · intro route rt_resource_name rt_id attachment_resources h
    unfold GenTerraform.generate_tgw_route
    by_cases hd : (route.destinationCidrBlock.getD "" == "") = true
    · rw [if_pos hd]
    · rw [if_neg hd, if_pos (by simp [h])]
  · intro rs
    unfold GenImport.collect_import_routes
    apply foldl_filter_skip
    intro acc a hk
    have ha : a.routeType = some "propagated" := by
      simpa using hk
    rw [if_pos (by simp [ha])]
  · intro all_attachments rs
    unfold GenConfig.collect_config_routes
    apply foldl_filter_skip
    intro acc a hk
    have ha : a.routeType = some "propagated" := by
      simpa using hk
    rw [if_pos (by simp [ha])]

/-- Witness for C6: a concrete propagated route yields no code. -/
theorem propagated_routes_skipped_witness :
    GenTerraform.generate_tgw_route
        (⟨some "propagated", some "10.0.0.0/16", some "active", none⟩ : RouteRec)
        "rt_main" "tgw-rtb-1" [] = Except.ok "" :=
  propagated_routes_skipped.1
    ⟨some "propagated", some "10.0.0.0/16", some "active", none⟩
    "rt_main" "tgw-rtb-1" [] rfl

/-! ### C8: CIDR-key character substitution -/

/-- C8 counterexample: within the single script `generate_terraform.py`,
the key derivation of `generate_tgw_route` leaves `:` in place (the IPv6
CIDR `fd00::/8` keeps its colons), while the derivation of
`generate_vpc_route` in the same script replaces it: neither "all
occurrences of `/`, `.` and `:` replaced" nor within-script consistency
holds. -/
theorem cidr_colon_inconsistent_cex :
    ':' ∈ (GenTerraform.route_dest_sanitize "fd00::/8").data
    ∧ GenTerraform.route_dest_sanitize "fd00::/8"
        ≠ GenTerraform.vpc_dest_sanitize "fd00::/8"
    ∧ GenTerraform.route_dest_sanitize "fd00::/8" = "fd00::_8"
    ∧ GenTerraform.vpc_dest_sanitize "fd00::/8" = "fd00___8" := by
  refine ⟨?_, ?_, ?_, ?_⟩ <;> decide

/-- C8 amended: the CIDR-key substitutions of `generate_import_commands.py`
(line 308), `generate_terraform_config.py` (line 792) and
`generate_vpc_route` in `generate_terraform.py` (line 260) agree and
replace every `/`, `.` and `:` with `_`; the substitution of
`generate_tgw_route` in `generate_terraform.py` (line 223) replaces only
`/` and `.`, leaving `:` in place — an inconsistency inside that one
script. -/
theorem cidr_key_sanitization_amended :
    (∀ s : String, GenImport.sanitize_cidr s = GenConfig.config_sanitize_cidr s)
    ∧ (∀ s : String,
       GenImport.sanitize_cidr s = GenTerraform.vpc_dest_sanitize s)
    ∧ (∀ (s : String) (c : Char), c ∈ (GenImport.sanitize_cidr s).data →
       c ≠ '/' ∧ c ≠ '.' ∧ c ≠ ':')
    ∧ (∀ (s : String) (c : Char),
       c ∈ (GenTerraform.route_dest_sanitize s).data →
       c ≠ '/' ∧ c ≠ '.') := by
  refine ⟨fun s => rfl, fun s => rfl, ?_, ?_⟩
  · intro s c hc
    unfold GenImport.sanitize_cidr at hc
    obtain ⟨a, _, rfl⟩ := List.mem_map.mp hc
    exact cidrReplFull_ne_dom a
  · intro s c hc
    unfold GenTerraform.route_dest_sanitize at hc
    obtain ⟨a, _, rfl⟩ := List.mem_map.mp hc
    exact cidrReplNoColon_ne_dom a

/-- Witness for C8: the membership parts at a concrete CIDR. -/
theorem cidr_key_sanitization_amended_witness :
    ('1' ≠ '/' ∧ '1' ≠ '.' ∧ '1' ≠ ':') ∧ (':' ≠ '/' ∧ ':' ≠ '.') :=
  ⟨cidr_key_sanitization_amended.2.2.1 "10.0.0.0/8" '1' (by decide),
   cidr_key_sanitization_amended.2.2.2 "fd00::/8" ':' (by decide)⟩

/-! ### C7: blackhole routes -/

/-- C7 counterexample: a non-propagated route in state `blackhole` but with
no `DestinationCidrBlock` is dropped entirely — no entry is emitted for it
by either script (the empty-destination guard runs before the blackhole
handling), contradicting "the route entry itself is still emitted". -/
theorem blackhole_empty_cidr_cex :
    GenConfig.collect_config_routes []
        [⟨some "static", none, some "blackhole", none⟩] = []
    ∧ GenTerraform.generate_tgw_route
        (⟨some "static", none, some "blackhole", none⟩ : RouteRec)
        "rt_main" "tgw-rtb-1" [] = Except.ok "" :=
  ⟨by decide, rfl⟩

theorem cfg_routes_fold_mono (m : List (String × GenConfig.CfgAttInfo))
    (rs : List RouteRec) (acc : List GenConfig.CfgRouteEntry)
    (e : GenConfig.CfgRouteEntry) (h : e ∈ acc) :
    e ∈ rs.foldl
      (fun routes route =>
        if route.routeType == some "propagated" then routes
        else
          let dest_cidr := route.destinationCidrBlock.getD ""
          if dest_cidr == "" then routes
          else routes ++ [GenConfig.mk_config_route_entry m route]) acc := by
  induction rs generalizing acc with
  | nil => exact h
  | cons r t ih =>
    rw [List.foldl_cons]
    apply ih
    dsimp only
    split_ifs <;> first | exact h | exact List.mem_append_left _ h

theorem mk_entry_mem_collect (m : List (String × GenConfig.CfgAttInfo))
    (rs : List RouteRec) (route : RouteRec) (hmem : route ∈ rs)
    (h2 : ¬ route.routeType = some "propagated")
    (h1 : route.destinationCidrBlock.getD "" ≠ "") :
    GenConfig.mk_config_route_entry m route
      ∈ GenConfig.collect_config_routes m rs := by
  unfold GenConfig.collect_config_routes
  suffices hgen : ∀ (l : List RouteRec) (acc : List GenConfig.CfgRouteEntry),
      route ∈ l →
      GenConfig.mk_config_route_entry m route ∈ l.foldl
        (fun routes route =>
          if route.routeType == some "propagated" then routes
          else
            let dest_cidr := route.destinationCidrBlock.getD ""
            if dest_cidr == "" then routes
            else routes ++ [GenConfig.mk_config_route_entry m route]) acc by
    exact hgen rs [] hmem
  intro l
  induction l with
  | nil =>
    intro acc hm
    cases hm
  | cons r t ih =>
    intro acc hm
    rw [List.foldl_cons]
    rcases List.mem_cons.mp hm with h | h
    · subst h
      dsimp only
      rw [if_neg (by simp [h2]), if_neg (by simp [h1])]
      exact cfg_routes_fold_mono m t _ _
        (List.mem_append_right _ (List.mem_singleton.mpr rfl))
    · exact ih _ h

/-- C7 amended: for every non-propagated route in state `blackhole` that
has a non-empty destination CIDR (and, in `generate_terraform.py`, whose
`TransitGatewayAttachments` field is absent or non-empty — an explicitly
empty list makes `[{}][0]`-style indexing raise), the emitted entry is
marked blackhole and carries no attachment reference, and the route entry
itself is emitted: `generate_tgw_route` produces exactly the header plus
the blackhole line, and the config-script collection keeps an entry with
`blackhole = true`, no `attachment_key`, rendered without attachment
lines. -/
theorem blackhole_route_amended :
    (∀ (route : RouteRec) (rt_resource_name rt_id : String)
       (attachment_resources : List (String × String)),
       route.destinationCidrBlock.getD "" ≠ "" →
       ¬ route.routeType = some "propagated" →
       route.state = some "blackhole" →
       route.transitGatewayAttachments ≠ some [] →
       GenTerraform.generate_tgw_route route rt_resource_name rt_id
           attachment_resources = Except.ok
         (GenTerraform.tgw_route_header (route.destinationCidrBlock.getD "")
             rt_resource_name
             (GenTerraform.route_dest_sanitize
               (route.destinationCidrBlock.getD ""))
           ++ "  blackhole              = true\n" ++ "\x7d\n\n"))
    ∧ (∀ (m : List (String × GenConfig.CfgAttInfo)) (rs : List RouteRec)
       (route : RouteRec),
       route ∈ rs →
       ¬ route.routeType = some "propagated" →
       route.state = some "blackhole" →
       route.destinationCidrBlock.getD "" ≠ "" →
       GenConfig.mk_config_route_entry m route
           ∈ GenConfig.collect_config_routes m rs
       ∧ (GenConfig.mk_config_route_entry m route).blackhole = true
       ∧ (GenConfig.mk_config_route_entry m route).attachment_key = none
       ∧ GenConfig.render_route_entry (GenConfig.mk_config_route_entry m route)
         = ["    route_" ++ GenConfig.config_sanitize_cidr
              (route.destinationCidrBlock.getD "") ++ " = \x7b",
            "      destination_cidr_block = \""
              ++ route.destinationCidrBlock.getD "" ++ "\"",
            "      blackhole              = true",
            "    \x7d"]) := by
  constructor
  · intro route rt_resource_name rt_id attachment_resources h1 h2 h3 h4
    unfold GenTerraform.generate_tgw_route
    rw [if_neg (by simp [h1]), if_neg (by simp [h2])]
    cases ha : route.transitGatewayAttachments with
    | none => simp [h3]
    | some l =>
      cases l with
      | nil => exact absurd ha h4
      | cons a t => simp [h3]
  · intro m rs route hmem h2 h3 h1
    refine ⟨mk_entry_mem_collect m rs route hmem h2 h1, ?_, ?_, ?_⟩
    · simp [GenConfig.mk_config_route_entry, h3]
    · simp [GenConfig.mk_config_route_entry, h3]
    · simp [GenConfig.render_route_entry, GenConfig.mk_config_route_entry, h3,
        truthyOptStr]
      rfl

/-- Witness for C7: a concrete blackhole route through both parts. -/
theorem blackhole_route_amended_witness :
    GenTerraform.generate_tgw_route
        (⟨some "static", some "0.0.0.0/0", some "blackhole", none⟩ : RouteRec)
        "rt_main" "tgw-rtb-1" [] = Except.ok
      (GenTerraform.tgw_route_header "0.0.0.0/0" "rt_main"
          (GenTerraform.route_dest_sanitize "0.0.0.0/0")
        ++ "  blackhole              = true\n" ++ "\x7d\n\n")
    ∧ GenConfig.mk_config_route_entry []
        ⟨some "static", some "0.0.0.0/0", some "blackhole", none⟩
      ∈ GenConfig.collect_config_routes []
        [⟨some "static", some "0.0.0.0/0", some "blackhole", none⟩] :=
  ⟨blackhole_route_amended.1
      ⟨some "static", some "0.0.0.0/0", some "blackhole", none⟩
      "rt_main" "tgw-rtb-1" [] (by decide) (by decide) rfl (by decide),
   (blackhole_route_amended.2 []
      [⟨some "static", some "0.0.0.0/0", some "blackhole", none⟩]
      ⟨some "static", some "0.0.0.0/0", some "blackhole", none⟩
      (List.mem_singleton.mpr rfl) (by decide) rfl (by decide)).1⟩

/-! ### C5: TGW selection and filtering in generate_terraform_config.py -/

/-- A route table of TGW `tgw-9`, foreign to the selected TGW of the C5
counterexample. -/
def c5ForeignRt : RouteTableRec :=
  ⟨"tgw-rtb-1", some "tgw-9", some [⟨some "Name", some "tgw-rt-foreign"⟩]⟩

/-- The C5 counterexample input: a single TGW whose `TransitGatewayId` is
the empty string, and one route table belonging to `tgw-9`. -/
def c5Input : GenConfig.CfgInputDir :=
  ⟨some ⟨some [⟨"", none, none, none⟩]⟩,
   none,
   some ⟨some [c5ForeignRt]⟩,
   fun _ => none, fun _ => none, fun _ => none, fun _ => none, fun _ => none⟩

/-- C5 counterexample: with the selected TGW's id equal to the empty
string, the truthiness guard of line 735 never skips, and the route table
of the unrelated TGW `tgw-9` is emitted, contradicting "records whose
TransitGatewayId differs are skipped". -/
theorem rt_filter_empty_sel_cex :
    GenConfig.generate_all_configs c5Input []
      = Except.ok (("", false, ⟨[], [], [], []⟩),
        [GenConfig.config_rt_entry [] c5Input c5ForeignRt])
    ∧ (c5ForeignRt.transitGatewayId == some "") = false
    ∧ (GenConfig.config_rt_entry [] c5Input c5ForeignRt).1 = "rt-foreign" :=
  ⟨rfl, by decide, by decide⟩

/-- C5 amended: `generate_shared_locals` selects the first TGW whose
`Options.DefaultRouteTableAssociation` is `disable`; with no such TGW it
selects the first TGW, printing the multiple-TGW warning exactly when more
than one is present.  Every attachment emitted belongs to the selected TGW
(the attachment loop has no truthiness guard, so this holds
unconditionally), and — provided the selected TGW's id is non-empty —
every route-table directory emitted belongs to the selected TGW as well;
with an empty selected id the guard of line 735 is disabled (see the
counterexample). -/
theorem tgw_selection_amended :
    (∀ (l1 l2 : List GenConfig.CfgTgw) (t : GenConfig.CfgTgw),
       (∀ u ∈ l1, GenConfig.is_disable_tgw u = false) →
       GenConfig.is_disable_tgw t = true →
       GenConfig.select_tgw (l1 ++ t :: l2) = some (t, false))
    ∧ (∀ (t : GenConfig.CfgTgw) (rest : List GenConfig.CfgTgw),
       (∀ u ∈ t :: rest, GenConfig.is_disable_tgw u = false) →
       GenConfig.select_tgw (t :: rest) = some (t, !rest.isEmpty))
    ∧ (∀ (sel : String) (inp : GenConfig.CfgInputDir)
       (atts : List Attachment),
       GenConfig.collect_shared_attachments sel inp atts
         = GenConfig.collect_shared_attachments sel inp
             (atts.filter (fun a => a.transitGatewayId == some sel)))
    ∧ (∀ (sel : String) (m : List (String × GenConfig.CfgAttInfo))
       (inp : GenConfig.CfgInputDir) (out : String × List String),
       sel ≠ "" →
       out ∈ GenConfig.config_rt_outputs sel m inp →
       ∃ rt ∈ (load_json inp.tgwRouteTables
           ⟨none⟩).transitGatewayRouteTables.getD [],
         rt.transitGatewayId = some sel
         ∧ out = GenConfig.config_rt_entry m inp rt) := by
  refine ⟨?_, ?_, ?_, ?_⟩
  · intro l1 l2 t h ht
    have hf : (l1 ++ t :: l2).find? GenConfig.is_disable_tgw = some t := by
      induction l1 with
      | nil => simp [List.find?_cons, ht]
      | cons u l1' ih =>
        have hu : GenConfig.is_disable_tgw u = false := h u (by simp)
        rw [List.cons_append]
        have step : (u :: (l1' ++ t :: l2)).find? GenConfig.is_disable_tgw
            = (l1' ++ t :: l2).find? GenConfig.is_disable_tgw := by
          simp [List.find?_cons, hu]
        rw [step]
        exact ih (fun v hv => h v (by simp [hv]))
    unfold GenConfig.select_tgw
    rw [hf]
  · intro t rest h
    have hf : (t :: rest).find? GenConfig.is_disable_tgw = none := by
      rw [List.find?_eq_none]
      intro u hu
      simp [h u hu]
    unfold GenConfig.select_tgw
    rw [hf]
  · intro sel inp atts
    unfold GenConfig.collect_shared_attachments
    apply foldl_filter_skip
    intro maps a hk
    unfold GenConfig.shared_att_step
    rw [if_pos (by simp [hk])]
  · intro sel m inp out hsel hmem
    unfold GenConfig.config_rt_outputs at hmem
    obtain ⟨rt, hrt, heq⟩ := List.mem_filterMap.mp hmem
    by_cases hc : (GenConfig.truthyStr sel
        && !(rt.transitGatewayId == some sel)) = true
    · rw [if_pos hc] at heq
      cases heq
    · rw [if_neg hc] at heq
      have htr : GenConfig.truthyStr sel = true := by
        simp only [GenConfig.truthyStr, bne_iff_ne, ne_eq]
        exact hsel
      have hbeq : (rt.transitGatewayId == some sel) = true := by
        rcases Bool.not_eq_true _ |>.mp hc |> Bool.and_eq_false_iff.mp with h' | h'
        · rw [htr] at h'
          cases h'
        · simpa using h'
      refine ⟨rt, hrt, by simpa using hbeq, by simpa using heq.symm⟩

/-- Witness for C5: the four parts at concrete inputs. -/
theorem tgw_selection_amended_witness :
    GenConfig.select_tgw
        [⟨"tgw-d", none, some ⟨some "disable", none, none, none, none, none,
          none⟩, none⟩]
      = some (⟨"tgw-d", none, some ⟨some "disable", none, none, none, none,
          none, none⟩, none⟩, false)
    ∧ GenConfig.select_tgw [⟨"tgw-a", none, none, none⟩,
        ⟨"tgw-b", none, none, none⟩]
      = some (⟨"tgw-a", none, none, none⟩, true) :=
  ⟨tgw_selection_amended.1 [] []
      ⟨"tgw-d", none, some ⟨some "disable", none, none, none, none, none,
        none⟩, none⟩
      (fun u hu => absurd hu (List.not_mem_nil u)) (by decide),
   tgw_selection_amended.2.1 ⟨"tgw-a", none, none, none⟩
      [⟨"tgw-b", none, none, none⟩] (by decide)⟩

/-! ### C9: key collisions overwrite silently -/

/-- Strict `Option` alternative (first value wins). -/
def optOr {α : Type} : Option α → Option α → Option α
  | some v, _ => some v
  | none, y => y

theorem getLast?_cons_optOr {α : Type} (a : α) (l : List α) :
    (a :: l).getLast? = optOr l.getLast? (some a) := by
  cases l with
  | nil => rfl
  | cons b t =>
    rw [List.getLast?_cons_cons]
    obtain ⟨x, hx⟩ := Option.isSome_iff_exists.mp
      (List.getLast?_isSome.mpr (List.cons_ne_nil b t))
    rw [hx]
    rfl

/-- Folding keyed inserts over a list: the final binding of a key is the
last contribution for it, else whatever the initial state bound. -/
theorem fold_insert_getLast {α β γ : Type} (step : γ → α → γ)
    (proj : γ → List (String × β)) (contrib : α → Option (String × β))
    (hstep : ∀ s a, proj (step s a)
      = (contrib a).elim (proj s) (fun kv => dictInsert (proj s) kv.1 kv.2))
    (k : String) (l : List α) (s : γ) :
    dictLookup (proj (l.foldl step s)) k
      = optOr (l.filterMap (fun a => (contrib a).bind
          (fun kv => if kv.1 == k then some kv.2 else none))).getLast?
          (dictLookup (proj s) k) := by
  induction l generalizing s with
  | nil => rfl
  | cons a t ih =>
    rw [List.foldl_cons]
    cases hc : contrib a with
    | none =>
      have hfa : (fun a => (contrib a).bind
          (fun kv => if kv.1 == k then some kv.2 else none)) a = none := by
        simp [hc]
      have hps : proj (step s a) = proj s := by
        rw [hstep s a, hc]
        rfl
      rw [List.filterMap_cons]
      simp only [hfa]
      rw [ih (step s a), hps]
    | some kv =>
      obtain ⟨kk, vv⟩ := kv
      by_cases hk : (kk == k) = true
      · have hps : proj (step s a) = dictInsert (proj s) kk vv := by
          rw [hstep s a, hc]
          rfl
        have hkk : kk = k := by simpa using hk
        subst hkk
        have hfa : (fun a => (contrib a).bind
            (fun kv => if kv.1 == kk then some kv.2 else none)) a
            = some vv := by
          simp [hc]
        rw [List.filterMap_cons]
        simp only [hfa]
        rw [ih (step s a), hps, dictLookup_insert_self, getLast?_cons_optOr]
        cases hl : (t.filterMap (fun a => (contrib a).bind
            (fun kv => if kv.1 == kk then some kv.2 else none))).getLast? with
        | none => rfl
        | some x => rfl
      · have hfa : (fun a => (contrib a).bind
            (fun kv => if kv.1 == k then some kv.2 else none)) a = none := by
          simp [hc, hk]
          simpa using hk
        have hps : proj (step s a) = dictInsert (proj s) kk vv := by
          rw [hstep s a, hc]
          rfl
        have hne : k ≠ kk := by
          intro he
          exact (by simpa using hk : ¬ kk = k) he.symm
        rw [List.filterMap_cons]
        simp only [hfa]
        rw [ih (step s a), hps, dictLookup_insert_ne (proj s) kk k vv hne]

theorem optOr_none_right {α : Type} (x : Option α) : optOr x none = x := by
  cases x <;> rfl

namespace GenConfig

/-- The (key, value) contribution an attachment record makes to the
`vpc_attachments` map of `generate_shared_locals`, if any. -/
def vpc_contrib (sel : String) (inp : CfgInputDir) (a : Attachment) :
    Option (String × VpcAttVal) :=
  if !(a.transitGatewayId == some sel) then none
  else
    let attKey := sanitize_key
      (get_tag_value a.tags "Name" a.transitGatewayAttachmentId)
    let resource_type := a.resourceType.getD ""
    if resource_type == "vpc" then some (attKey, mk_vpc_att_val inp a)
    else none

/-- The contribution to `peering_attachments`. -/
def peer_contrib (sel : String) (inp : CfgInputDir) (a : Attachment) :
    Option (String × PeerAttVal) :=
  if !(a.transitGatewayId == some sel) then none
  else
    let attKey := sanitize_key
      (get_tag_value a.tags "Name" a.transitGatewayAttachmentId)
    let resource_type := a.resourceType.getD ""
    if resource_type == "vpc" then none
    else if resource_type == "peering" then some (attKey, mk_peer_att_val inp a)
    else none

/-- The contribution to `vpn_attachments`. -/
def vpn_contrib (sel : String) (a : Attachment) :
    Option (String × VpnAttVal) :=
  if !(a.transitGatewayId == some sel) then none
  else
    let attKey := sanitize_key
      (get_tag_value a.tags "Name" a.transitGatewayAttachmentId)
    let resource_type := a.resourceType.getD ""
    if resource_type == "vpc" then none
    else if resource_type == "peering" then none
    else if resource_type == "vpn" then some (attKey, mk_vpn_att_val a)
    else none

/-- The contribution to `dx_gateway_attachments`. -/
def dx_contrib (sel : String) (a : Attachment) :
    Option (String × DxAttVal) :=
  if !(a.transitGatewayId == some sel) then none
  else
    let attKey := sanitize_key
      (get_tag_value a.tags "Name" a.transitGatewayAttachmentId)
    let resource_type := a.resourceType.getD ""
    if resource_type == "vpc" then none
    else if resource_type == "peering" then none
    else if resource_type == "vpn" then none
    else if resource_type == "direct-connect-gateway" then
      some (attKey, mk_dx_att_val a)
    else none

theorem shared_step_vpc (sel : String) (inp : CfgInputDir) (maps : SharedMaps)
    (a : Attachment) :
    (shared_att_step sel inp maps a).vpc_attachments
      = (vpc_contrib sel inp a).elim maps.vpc_attachments
          (fun kv => dictInsert maps.vpc_attachments kv.1 kv.2) := by
  unfold shared_att_step vpc_contrib
  dsimp only
  split_ifs <;> rfl

theorem shared_step_peer (sel : String) (inp : CfgInputDir) (maps : SharedMaps)
    (a : Attachment) :
    (shared_att_step sel inp maps a).peering_attachments
      = (peer_contrib sel inp a).elim maps.peering_attachments
          (fun kv => dictInsert maps.peering_attachments kv.1 kv.2) := by
  unfold shared_att_step peer_contrib
  dsimp only
  split_ifs <;> rfl

theorem shared_step_vpn (sel : String) (inp : CfgInputDir) (maps : SharedMaps)
    (a : Attachment) :
    (shared_att_step sel inp maps a).vpn_attachments
      = (vpn_contrib sel a).elim maps.vpn_attachments
          (fun kv => dictInsert maps.vpn_attachments kv.1 kv.2) := by
  unfold shared_att_step vpn_contrib
  dsimp only
  split_ifs <;> rfl

theorem shared_step_dx (sel : String) (inp : CfgInputDir) (maps : SharedMaps)
    (a : Attachment) :
    (shared_att_step sel inp maps a).dx_gateway_attachments
      = (dx_contrib sel a).elim maps.dx_gateway_attachments
          (fun kv => dictInsert maps.dx_gateway_attachments kv.1 kv.2) := by
  unfold shared_att_step dx_contrib
  dsimp only
  split_ifs <;> rfl

/-- All values successive attachment records would bind to key `k` in the
`vpc_attachments` map, in input order. -/
def vpc_contributions (sel : String) (inp : CfgInputDir)
    (atts : List Attachment) (k : String) : List VpcAttVal :=
  atts.filterMap (fun a => (vpc_contrib sel inp a).bind
    (fun kv => if kv.1 == k then some kv.2 else none))

def peer_contributions (sel : String) (inp : CfgInputDir)
    (atts : List Attachment) (k : String) : List PeerAttVal :=
  atts.filterMap (fun a => (peer_contrib sel inp a).bind
    (fun kv => if kv.1 == k then some kv.2 else none))

def vpn_contributions (sel : String) (atts : List Attachment) (k : String) :
    List VpnAttVal :=
  atts.filterMap (fun a => (vpn_contrib sel a).bind
    (fun kv => if kv.1 == k then some kv.2 else none))

def dx_contributions (sel : String) (atts : List Attachment) (k : String) :
    List DxAttVal :=
  atts.filterMap (fun a => (dx_contrib sel a).bind
    (fun kv => if kv.1 == k then some kv.2 else none))

end GenConfig

/-- C9: in every key-indexed map `generate_shared_locals` builds
(`vpc_attachments`, `peering_attachments`, `vpn_attachments`,
`dx_gateway_attachments`), looking up a key yields exactly the value of the
last record that sanitized to it: a later record silently overwrites an
earlier one with the same key, and the collection is total — no collision
is detected, reported or resolved. -/
theorem dict_overwrite_last_wins (sel : String) (inp : GenConfig.CfgInputDir)
    (atts : List Attachment) (k : String) :
    dictLookup (GenConfig.collect_shared_attachments sel inp
        atts).vpc_attachments k
      = (GenConfig.vpc_contributions sel inp atts k).getLast?
    ∧ dictLookup (GenConfig.collect_shared_attachments sel inp
        atts).peering_attachments k
      = (GenConfig.peer_contributions sel inp atts k).getLast?
    ∧ dictLookup (GenConfig.collect_shared_attachments sel inp
        atts).vpn_attachments k
      = (GenConfig.vpn_contributions sel atts k).getLast?
    ∧ dictLookup (GenConfig.collect_shared_attachments sel inp
        atts).dx_gateway_attachments k
      = (GenConfig.dx_contributions sel atts k).getLast? := by
  refine ⟨?_, ?_, ?_, ?_⟩
  · exact (fold_insert_getLast (GenConfig.shared_att_step sel inp)
      (fun m => m.vpc_attachments) (GenConfig.vpc_contrib sel inp)
      (GenConfig.shared_step_vpc sel inp) k atts ⟨[], [], [], []⟩).trans
      (optOr_none_right _)
  · exact (fold_insert_getLast (GenConfig.shared_att_step sel inp)
      (fun m => m.peering_attachments) (GenConfig.peer_contrib sel inp)
      (GenConfig.shared_step_peer sel inp) k atts ⟨[], [], [], []⟩).trans
      (optOr_none_right _)
  · exact (fold_insert_getLast (GenConfig.shared_att_step sel inp)
      (fun m => m.vpn_attachments) (GenConfig.vpn_contrib sel)
      (GenConfig.shared_step_vpn sel inp) k atts ⟨[], [], [], []⟩).trans
      (optOr_none_right _)
  · exact (fold_insert_getLast (GenConfig.shared_att_step sel inp)
      (fun m => m.dx_gateway_attachments) (GenConfig.dx_contrib sel)
      (GenConfig.shared_step_dx sel inp) k atts ⟨[], [], [], []⟩).trans
      (optOr_none_right _)
